import Mathlib

/-! # syslog-ng SQL destination and threaded destination worker

A shallow embedding of `modules/afsql/afsql.c` and of the callbacks of
`lib/tests/test_logthrdestdrv.c`, with theorems about them.

Conventions of the embedding

* A C string (`gchar *`) is a `String`: the characters before the terminating NUL, each
  `Char` standing for one `gchar`.  A loop `for (i = 0; token[i]; i++)` is a traversal
  of `token.data`.
* `gint` values are `Int`; a `gboolean` is a `Bool`.
* A function that mutates `*self` takes the driver and returns the new driver next to
  its C return value.
* The database behind libdbi is a parameter of the model: `dbi_conn` gives the server's
  answer to a statement as a function of the statements issued before it.  The driver
  carries the list of statements handed to `dbi_conn_query` so far (`queries`,
  oldest first); a statement is "issued" when it is appended to that list.
* Diagnostic output (`msg_error`, `msg_debug`) is not modelled.
-/

namespace SyslogNg

/-! ## Verdicts, messages, templates -/

/-- The delivery verdict returned by the `insert` and `flush` callbacks
(`worker_insert_result_t`, used by both source files). -/
inductive worker_insert_result_t where
  | WORKER_INSERT_RESULT_DROP
  | WORKER_INSERT_RESULT_ERROR
  | WORKER_INSERT_RESULT_SUCCESS
  | WORKER_INSERT_RESULT_QUEUED
  | WORKER_INSERT_RESULT_NOT_CONNECTED
  deriving DecidableEq, Repr

open worker_insert_result_t

/-- A log message; the drivers consume it only through template rendering. -/
structure LogMessage where
  values : List (String × String)
  deriving DecidableEq, Repr

/-- A compiled template: its source text (`template`) and the rendering primitive
`log_template_format (template, msg, ..., seq_num, ...)`. -/
structure LogTemplate where
  template : String
  format : LogMessage → Int → String

/-! ## The libdbi connection -/

/-- The result of a successful `dbi_conn_query`; the driver reads only the names of its
fields (`dbi_result_get_field_idx`). -/
structure dbi_result where
  fields : List String
  deriving DecidableEq, Repr

/-- The connection handle `dbi_conn`, as the driver observes it.
`query history q` is the answer of `dbi_conn_query` to `q` after the statements `history`
(`none` is the NULL result of a failed query), `quote_string_copy` is
`dbi_conn_quote_string_copy` (`none` when it leaves the copy NULL) and `ping history`
tells whether `dbi_conn_ping` would report the connection as alive. -/
structure dbi_conn where
  query : List String → String → Option dbi_result
  quote_string_copy : String → Option String
  ping : List String → Bool

/-! ## Driver structures -/

/-- The fields of `LogThreadedDestDriver` (and of the `LogPipe` under it) that
`afsql.c` and the test callbacks read through `super`, with the three message counters. -/
structure LogThreadedDestDriver where
  persist_name : Option String
  time_reopen : Int
  retries_max : Int
  retries_counter : Int
  batch_size : Int
  seq_num : Int
  processed_messages : Nat
  written_messages : Nat
  dropped_messages : Nat

/-- Modelled from the spec: `afsql.h` is not among the sources; the field flag
`AFSQL_FF_DEFAULT` marks a column whose value is the sentinel `DEFAULT`. -/
def AFSQL_FF_DEFAULT : Nat := 0x0001

/-- Modelled from the spec: `afsql.h` is not among the sources; the driver flag of
`explicit-commits`, a single-bit mask. -/
def AFSQL_DDF_EXPLICIT_COMMITS : Nat := 0x0001

/-- Modelled from the spec: `afsql.h` is not among the sources; the driver flag of
`dont-create-tables`, a single-bit mask distinct from `AFSQL_DDF_EXPLICIT_COMMITS`. -/
def AFSQL_DDF_DONT_CREATE_TABLES : Nat := 0x0002

/-- Modelled from the spec: `afsql.h` is not among the sources; the sentinel that stands
for `DEFAULT` in the list of values. -/
def AFSQL_COLUMN_DEFAULT : Nat := 1

/-- An entry of the `values` list: a pointer to a template string, or a small integer
sentinel stored in the pointer (`GPOINTER_TO_UINT (value->data) <= 4096`). -/
inductive afsql_value where
  | template (text : String)
  | sentinel (n : Nat)
  deriving DecidableEq, Repr

/-- One entry of `self->fields` (`AFSqlField`). -/
structure AFSqlField where
  flags : Nat
  name : String
  type : String
  value : Option LogTemplate

/-- The SQL destination driver (`AFSqlDestDriver`).  `queries` is the list of statements
handed to `dbi_conn_query` so far, oldest first. -/
structure AFSqlDestDriver where
  super : LogThreadedDestDriver
  type : String
  host : String
  port : String
  user : String
  password : String
  database : String
  encoding : String
  create_statement_append : Option String
  columns : Option (List String)
  values : Option (List afsql_value)
  indexes : List String
  table : LogTemplate
  fields : Option (List AFSqlField)
  null_value : Option String
  flags : Nat
  flush_lines : Int
  num_retries : Int
  ignore_tns_config : Bool
  session_statements : List String
  transaction_active : Bool
  failed_message_counter : Int
  syslogng_conform_tables : List String
  dbi_ctx : Option dbi_conn
  queries : List String

/-- The constant `MAX_FAILED_ATTEMPTS`. -/
def MAX_FAILED_ATTEMPTS : Int := 3

def s_oracle : String := "oracle"

def s_freetds : String := "freetds"

/-- The array `self->fields` with its `fields_len` entries (empty while `fields` is NULL). -/
def AFSqlDestDriver.fields_list (self : AFSqlDestDriver) : List AFSqlField :=
  self.fields.getD []

/-! ## Running statements and transactions -/

/-- The C function `afsql_dd_run_query`: hand `query` to `dbi_conn_query`.  Returns the
result (`none` on failure) and the driver with the statement recorded.  A NULL
connection answers every statement with NULL. -/
def afsql_dd_run_query (self : AFSqlDestDriver) (query : String) (_silent : Bool) :
    Option dbi_result × AFSqlDestDriver :=
  let db_res := match self.dbi_ctx with
    | none => none
    | some conn => conn.query self.queries query
  (db_res, { self with queries := self.queries ++ [query] })

/-- The C function `afsql_dd_commit_transaction`. -/
def afsql_dd_commit_transaction (self : AFSqlDestDriver) : Bool × AFSqlDestDriver :=
  if !self.transaction_active then (true, self)
  else
    let r := afsql_dd_run_query self "COMMIT" false
    if r.1.isSome then (true, { r.2 with transaction_active := false })
    else (false, r.2)

/-- The C function `afsql_dd_begin_transaction`. -/
def afsql_dd_begin_transaction (self : AFSqlDestDriver) : Bool × AFSqlDestDriver :=
  let s_begin := if self.type == s_freetds then "BEGIN TRANSACTION" else "BEGIN"
  if self.type != s_oracle then
    let r := afsql_dd_run_query self s_begin false
    (r.1.isSome, { r.2 with transaction_active := r.1.isSome })
  else
    (true, { self with transaction_active := true })

/-- The C function `afsql_dd_rollback_transaction`. -/
def afsql_dd_rollback_transaction (self : AFSqlDestDriver) : Bool × AFSqlDestDriver :=
  if !self.transaction_active then (true, self)
  else
    let r := afsql_dd_run_query { self with transaction_active := false } "ROLLBACK" false
    (r.1.isSome, r.2)

/-- The C function `afsql_dd_begin_new_transaction`. -/
def afsql_dd_begin_new_transaction (self : AFSqlDestDriver) : Bool × AFSqlDestDriver :=
  if self.transaction_active then
    let c := afsql_dd_commit_transaction self
    if !c.1 then (false, (afsql_dd_rollback_transaction c.2).2)
    else afsql_dd_begin_transaction c.2
  else afsql_dd_begin_transaction self

/-! ## SQL identifiers -/

/-- The glib function `g_ascii_tolower`. -/
def g_ascii_tolower (c : Char) : Char :=
  if 'A' ≤ c ∧ c ≤ 'Z' then Char.ofNat (c.toNat + 32) else c

/-- The C function `_sql_identifier_is_valid_char`. -/
def _sql_identifier_is_valid_char (c : Char) : Bool :=
  (c == '.') ||
  (c == '_') ||
  (decide ('0' ≤ c) && decide (c ≤ '9')) ||
  (decide ('a' ≤ g_ascii_tolower c) && decide (g_ascii_tolower c ≤ 'z'))

/-- The C function `_is_sql_identifier_sanitized`: FALSE at the first invalid character. -/
def _is_sql_identifier_sanitized (token : String) : Bool :=
  token.data.all _sql_identifier_is_valid_char

/-- The C function `_sanitize_sql_identifier`: every invalid character is overwritten
with an underscore, in place. -/
def _sanitize_sql_identifier (token : String) : String :=
  String.mk (token.data.map (fun c => if _sql_identifier_is_valid_char c then c else '_'))

/-! ## Schema discovery -/

/-- Two lower-case hexadecimal digits of a byte (`"%02x"`). -/
def hex_byte (b : Nat) : List Char :=
  ["0123456789abcdef".data.getD (b / 16 % 16) '0', "0123456789abcdef".data.getD (b % 16) '0']

/-- Modelled from the spec: `format_hex_string` of `str-format.h` is not among the sources;
it hex-encodes the bytes of `data` into a buffer of `result_len` characters (terminator
included), keeping whole bytes only. -/
def format_hex_string (data : List Nat) (result_len : Nat) : String :=
  String.mk ((data.take ((result_len - 1) / 2)).flatMap hex_byte)

/-- The statement built by `afsql_dd_create_index`.  `MD5` is the digest function of
openssl, a parameter of the model. -/
def afsql_dd_create_index_query (MD5 : String → List Nat) (self : AFSqlDestDriver)
    (table column : String) : String :=
  if self.type == s_oracle then
    if table.length + column.length > 25 then
      let cat := table ++ "_" ++ column
      let hash_str := format_hex_string (MD5 cat) 31
      let hash_str := String.mk ('i' :: hash_str.data.tail)
      "CREATE INDEX " ++ hash_str ++ " ON " ++ table ++ " (" ++ column ++ ")"
    else
      "CREATE INDEX " ++ table ++ "_" ++ column ++ "_idx ON " ++ table ++ " (" ++ column ++ ")"
  else
    "CREATE INDEX " ++ table ++ "_" ++ column ++ "_idx ON " ++ table ++ " (" ++ column ++ ")"

/-- The C function `afsql_dd_create_index`. -/
def afsql_dd_create_index (MD5 : String → List Nat) (self : AFSqlDestDriver)
    (table column : String) : Bool × AFSqlDestDriver :=
  let r := afsql_dd_run_query self (afsql_dd_create_index_query MD5 self table column) false
  (r.1.isSome, r.2)

/-- The C function `_is_table_syslogng_conform`: lookup in the hash table of confirmed
tables. -/
def _is_table_syslogng_conform (self : AFSqlDestDriver) (table : String) : Bool :=
  self.syslogng_conform_tables.contains table

/-- The C function `_remember_table_as_syslogng_conform`: `g_hash_table_insert`. -/
def _remember_table_as_syslogng_conform (self : AFSqlDestDriver) (table : String) :
    AFSqlDestDriver :=
  { self with syslogng_conform_tables := self.syslogng_conform_tables.insert table }

/-- The C function `_is_table_present`: returns the result of the probe and its metadata. -/
def _is_table_present (self : AFSqlDestDriver) (table : String) :
    Option dbi_result × AFSqlDestDriver :=
  let b := afsql_dd_begin_new_transaction self
  if !b.1 then (none, b.2)
  else
    let r := afsql_dd_run_query b.2 ("SELECT * FROM " ++ table ++ " WHERE 0=1") true
    let c := afsql_dd_commit_transaction r.2
    (r.1, c.2)

/-- The libdbi function `dbi_result_get_field_idx`: the 1-based index of the field, 0 when
the result has no such field. -/
def dbi_result_get_field_idx (db_res : dbi_result) (name : String) : Nat :=
  if db_res.fields.contains name then db_res.fields.indexOf name + 1 else 0

/-- The inner loop of `_ensure_table_is_syslogng_conform` over `self->indexes`: create the
index of every entry equal to the column name (the result of each creation is ignored). -/
def _create_indexes_of_column (MD5 : String → List Nat) (table name : String) :
    List String → AFSqlDestDriver → AFSqlDestDriver
  | [], self => self
  | l :: rest, self =>
    if l == name then
      _create_indexes_of_column MD5 table name rest (afsql_dd_create_index MD5 self table name).2
    else _create_indexes_of_column MD5 table name rest self

/-- The `for` loop of `_ensure_table_is_syslogng_conform` over the fields still to visit;
carries `new_transaction_started` and returns `(success, new_transaction_started, self)`. -/
def _ensure_table_fields (MD5 : String → List Nat) (db_res : dbi_result) (table : String) :
    List AFSqlField → Bool → AFSqlDestDriver → Bool × Bool × AFSqlDestDriver
  | [], started, self => (true, started, self)
  | f :: rest, started, self =>
    if dbi_result_get_field_idx db_res f.name == 0 then
      let b := if !started then afsql_dd_begin_new_transaction self else (true, self)
      if !b.1 then (false, started, b.2)
      else
        let q := afsql_dd_run_query b.2
          ("ALTER TABLE " ++ table ++ " ADD " ++ f.name ++ " " ++ f.type) false
        if !q.1.isSome then (false, true, q.2)
        else
          _ensure_table_fields MD5 db_res table rest true
            (_create_indexes_of_column MD5 table f.name q.2.indexes q.2)
    else _ensure_table_fields MD5 db_res table rest started self

/-- The C function `_ensure_table_is_syslogng_conform`. -/
def _ensure_table_is_syslogng_conform (MD5 : String → List Nat) (self : AFSqlDestDriver)
    (db_res : dbi_result) (table : String) : Bool × AFSqlDestDriver :=
  let r := _ensure_table_fields MD5 db_res table self.fields_list false self
  let success := r.1
  let new_transaction_started := r.2.1
  let self := r.2.2
  if new_transaction_started then
    if !success then (false, (afsql_dd_rollback_transaction self).2)
    else
      let c := afsql_dd_commit_transaction self
      if !c.1 then (false, (afsql_dd_rollback_transaction c.2).2)
      else (success, c.2)
  else (success, self)

/-- The `for` loop of `_table_create_indexes`: stops at the first failed creation. -/
def _table_create_indexes_loop (MD5 : String → List Nat) (table : String) :
    List String → AFSqlDestDriver → Bool × AFSqlDestDriver
  | [], self => (true, self)
  | l :: rest, self =>
    let r := afsql_dd_create_index MD5 self table l
    if r.1 then _table_create_indexes_loop MD5 table rest r.2 else (false, r.2)

/-- The C function `_table_create_indexes`. -/
def _table_create_indexes (MD5 : String → List Nat) (self : AFSqlDestDriver)
    (table : String) : Bool × AFSqlDestDriver :=
  let b := afsql_dd_begin_new_transaction self
  if !b.1 then (false, b.2)
  else
    let r := _table_create_indexes_loop MD5 table b.2.indexes b.2
    if !r.1 then (r.1, (afsql_dd_rollback_transaction r.2).2)
    else
      let c := afsql_dd_commit_transaction r.2
      if !c.1 then (r.1, (afsql_dd_rollback_transaction c.2).2)
      else (r.1, c.2)

/-- The column list of `CREATE TABLE`: `name type` of each field, `", "` after every field
but the last. -/
def _table_create_columns : List AFSqlField → String
  | [] => ""
  | [f] => f.name ++ " " ++ f.type
  | f :: g :: rest => f.name ++ " " ++ f.type ++ ", " ++ _table_create_columns (g :: rest)

/-- The statement built by `_table_create`. -/
def _table_create_query (self : AFSqlDestDriver) (table : String) : String :=
  "CREATE TABLE " ++ table ++ " (" ++ _table_create_columns self.fields_list ++ ")" ++
    self.create_statement_append.getD ""

/-- The C function `_table_create`. -/
def _table_create (self : AFSqlDestDriver) (table : String) : Bool × AFSqlDestDriver :=
  let b := afsql_dd_begin_new_transaction self
  if !b.1 then (false, b.2)
  else
    let q := afsql_dd_run_query b.2 (_table_create_query b.2 table) false
    let success := q.1.isSome
    if !success then (success, (afsql_dd_rollback_transaction q.2).2)
    else
      let c := afsql_dd_commit_transaction q.2
      if !c.1 then (success, (afsql_dd_rollback_transaction c.2).2)
      else (success, c.2)

/-- The C function `afsql_dd_ensure_table_is_syslogng_conform`.  The `GString *table` is
modified in place; the model returns its final content next to the result. -/
def afsql_dd_ensure_table_is_syslogng_conform (MD5 : String → List Nat)
    (self : AFSqlDestDriver) (table : String) : Bool × String × AFSqlDestDriver :=
  if self.flags &&& AFSQL_DDF_DONT_CREATE_TABLES != 0 then (true, table, self)
  else
    let table := _sanitize_sql_identifier table
    if _is_table_syslogng_conform self table then (true, table, self)
    else
      let p := _is_table_present self table
      let r := match p.1 with
        | some db_res => _ensure_table_is_syslogng_conform MD5 p.2 db_res table
        | none =>
          let c := _table_create p.2 table
          if c.1 then _table_create_indexes MD5 c.2 table else (false, c.2)
      if r.1 then (true, table, _remember_table_as_syslogng_conform r.2 table)
      else (false, table, r.2)

/-- The C function `afsql_dd_ensure_accessible_database_table`: the rendered (and checked)
table name, `none` for the NULL it returns when the check fails. -/
def afsql_dd_ensure_accessible_database_table (MD5 : String → List Nat)
    (self : AFSqlDestDriver) (msg : LogMessage) : Option String × AFSqlDestDriver :=
  let table := self.table.format msg 0
  let r := afsql_dd_ensure_table_is_syslogng_conform MD5 self table
  if !r.1 then (none, r.2.2) else (some r.2.1, r.2.2)

/-! ## Insert and flush -/

/-- The scan `j = i + 1; while (j < fields_len && (fields[j].flags & AFSQL_FF_DEFAULT) ==
AFSQL_FF_DEFAULT) j++;` of `afsql_dd_build_insert_command` over the fields after `i`:
whether it ends with `j < fields_len`. -/
def _field_follows : List AFSqlField → Bool
  | [] => false
  | f :: rest =>
    if f.flags &&& AFSQL_FF_DEFAULT == AFSQL_FF_DEFAULT then _field_follows rest else true

/-- The first loop of `afsql_dd_build_insert_command`: the column names. -/
def _insert_command_columns : List AFSqlField → String
  | [] => ""
  | f :: rest =>
    (if (f.flags &&& AFSQL_FF_DEFAULT == 0) && f.value.isSome then
      f.name ++ (if _field_follows rest then ", " else "")
    else "") ++ _insert_command_columns rest

/-- The text appended for one rendered value: `NULL` when it equals `null_value`,
otherwise the quoted copy made by the connection, `''` when there is none. -/
def _insert_command_value (self : AFSqlDestDriver) (value : String) : String :=
  if self.null_value == some value then "NULL"
  else
    match self.dbi_ctx.bind (fun conn => conn.quote_string_copy value) with
    | some quoted => quoted
    | none => "''"

/-- The second loop of `afsql_dd_build_insert_command`: the values. -/
def _insert_command_values (self : AFSqlDestDriver) (msg : LogMessage) :
    List AFSqlField → String
  | [] => ""
  | f :: rest =>
    (match f.value with
     | some tmpl =>
       if f.flags &&& AFSQL_FF_DEFAULT == 0 then
         _insert_command_value self (tmpl.format msg self.super.seq_num) ++
           (if _field_follows rest then ", " else "")
       else ""
     | none => "") ++ _insert_command_values self msg rest

/-- The C function `afsql_dd_build_insert_command`. -/
def afsql_dd_build_insert_command (self : AFSqlDestDriver) (msg : LogMessage)
    (table : String) : String :=
  "INSERT INTO " ++ table ++ " (" ++ _insert_command_columns self.fields_list ++
    ") VALUES (" ++ _insert_command_values self msg self.fields_list ++ ")"

/-- The C function `afsql_dd_is_transaction_handling_enabled`. -/
def afsql_dd_is_transaction_handling_enabled (self : AFSqlDestDriver) : Bool :=
  self.flags &&& AFSQL_DDF_EXPLICIT_COMMITS != 0

/-- The C function `afsql_dd_should_begin_new_transaction`. -/
def afsql_dd_should_begin_new_transaction (self : AFSqlDestDriver) : Bool :=
  afsql_dd_is_transaction_handling_enabled self && self.super.batch_size == 0

/-- The C function `afsql_dd_should_commit_transaction`. -/
def afsql_dd_should_commit_transaction (self : AFSqlDestDriver) : Bool :=
  afsql_dd_is_transaction_handling_enabled self &&
    decide (self.super.batch_size ≥ self.flush_lines)

/-- The C function `afsql_dd_handle_insert_row_error_depending_on_connection_availability`.
The `dbi_conn_ping` test at its head is compiled out (`#if 0`); what remains chooses a
diagnostic text and returns `WORKER_INSERT_RESULT_ERROR`. -/
def afsql_dd_handle_insert_row_error_depending_on_connection_availability
    (_self : AFSqlDestDriver) : worker_insert_result_t :=
  WORKER_INSERT_RESULT_ERROR

/-- The C function `afsql_dd_flush`. -/
def afsql_dd_flush (self : AFSqlDestDriver) : worker_insert_result_t × AFSqlDestDriver :=
  let c := afsql_dd_commit_transaction self
  if !c.1 then (WORKER_INSERT_RESULT_ERROR, (afsql_dd_rollback_transaction c.2).2)
  else (WORKER_INSERT_RESULT_SUCCESS, c.2)

/-- The C function `afsql_dd_insert`. -/
def afsql_dd_insert (MD5 : String → List Nat) (self : AFSqlDestDriver) (msg : LogMessage) :
    worker_insert_result_t × AFSqlDestDriver :=
  let t := afsql_dd_ensure_accessible_database_table MD5 self msg
  match t.1 with
  | none => (WORKER_INSERT_RESULT_ERROR, t.2)
  | some table =>
    let b := if afsql_dd_should_begin_new_transaction t.2 then afsql_dd_begin_transaction t.2
      else (true, t.2)
    if !b.1 then (WORKER_INSERT_RESULT_ERROR, b.2)
    else
      let q := afsql_dd_run_query b.2 (afsql_dd_build_insert_command b.2 msg table) false
      if !q.1.isSome then
        (afsql_dd_handle_insert_row_error_depending_on_connection_availability q.2, q.2)
      else if afsql_dd_should_commit_transaction q.2 then afsql_dd_flush q.2
      else
        (if afsql_dd_is_transaction_handling_enabled q.2 then WORKER_INSERT_RESULT_QUEUED
         else WORKER_INSERT_RESULT_SUCCESS, q.2)

/-! ## The threaded destination worker

`logthrdestdrv.c` is not among the sources: only its test is.  The worker is modelled
from sections 3, 4.1 and 4.2 of the specification; the callbacks are those of the test. -/

/-- Modelled from the spec: the outcomes of the retry policy (section 4.2); the policy
itself is in `logthrdestdrv.c`, which is not among the sources. -/
inductive retry_action where
  | ACK
  | RETRY
  | DROP_UNIT
  | RECONNECT_AND_RETRY
  deriving DecidableEq, Repr

open retry_action

/-- Modelled from the spec: the retry policy of `logthrdestdrv.c` (section 4.2), a pure
function of the last verdict, `retries_counter` (already incremented for this `ERROR`)
and `retries_max`.  `QUEUED` ends no unit, so the policy has no outcome for it. -/
def retry_policy (verdict : worker_insert_result_t) (retries_counter retries_max : Int) :
    Option retry_action :=
  match verdict with
  | WORKER_INSERT_RESULT_SUCCESS => some ACK
  | WORKER_INSERT_RESULT_QUEUED => none
  | WORKER_INSERT_RESULT_DROP => some DROP_UNIT
  | WORKER_INSERT_RESULT_ERROR =>
    if retries_counter < retries_max then some RETRY else some DROP_UNIT
  | WORKER_INSERT_RESULT_NOT_CONNECTED => some RECONNECT_AND_RETRY

/-- Modelled from the spec: the callbacks a driver supplies to the worker of
`logthrdestdrv.c` (section 4.1); `connect`, `disconnect` and `flush` are optional.  A
callback reads the worker's fields and updates the driver's own state `σ`. -/
structure WorkerCallbacks (σ : Type) where
  connect : Option (LogThreadedDestDriver → σ → Bool × σ)
  disconnect : Option (LogThreadedDestDriver → σ → σ)
  insert : LogThreadedDestDriver → σ → LogMessage → worker_insert_result_t × σ
  flush : Option (LogThreadedDestDriver → σ → worker_insert_result_t × σ)

/-- Modelled from the spec: the state of the worker of `logthrdestdrv.c` (section 3).
`queue` is the durable queue, head first, whose first `rewound` messages were popped
before and rewound; `pending` holds the popped messages of the current unit, not yet
acknowledged; `self` is the state of the driver behind the callbacks. -/
structure Worker (σ : Type) where
  super : LogThreadedDestDriver
  queue : List LogMessage
  rewound : Nat
  pending : List LogMessage
  connected : Bool
  self : σ

/-- Modelled from the spec: acknowledging the whole pending unit in `logthrdestdrv.c`,
counted as written (`SUCCESS`) or as dropped (`DROP`, retry budget exhausted); the retry
state is reset. -/
def worker_ack_unit {σ : Type} (w : Worker σ) (written : Bool) : Worker σ :=
  { w with
    pending := [],
    super := { w.super with
      written_messages := w.super.written_messages + (if written then w.pending.length else 0),
      dropped_messages := w.super.dropped_messages + (if written then 0 else w.pending.length),
      retries_counter := 0,
      batch_size := 0 } }

/-- Modelled from the spec: the backlog rewind of `logthrdestdrv.c`; the pending unit
returns to the head of the queue in its original order, to be delivered again. -/
def worker_rewind {σ : Type} (w : Worker σ) : Worker σ :=
  { w with
    queue := w.pending ++ w.queue,
    rewound := w.rewound + w.pending.length,
    pending := [],
    super := { w.super with batch_size := 0 } }

/-- Modelled from the spec: how the worker of `logthrdestdrv.c` applies a verdict to the
pending unit (section 4.1, step 3); `QUEUED` leaves the unit pending. -/
def worker_process_result {σ : Type} (cb : WorkerCallbacks σ)
    (verdict : worker_insert_result_t) (w : Worker σ) : Worker σ :=
  let w := if verdict = WORKER_INSERT_RESULT_ERROR then
      { w with super := { w.super with retries_counter := w.super.retries_counter + 1 } }
    else w
  match retry_policy verdict w.super.retries_counter w.super.retries_max with
  | none => w
  | some ACK => worker_ack_unit w true
  | some DROP_UNIT => worker_ack_unit w false
  | some RETRY => worker_rewind w
  | some RECONNECT_AND_RETRY =>
    let self := match cb.disconnect with
      | none => w.self
      | some disconnect => disconnect w.super w.self
    worker_rewind { w with connected := false, self := self }

/-- Modelled from the spec: one turn of the worker loop of `logthrdestdrv.c`
(section 4.1).  Not connected: one `connect` attempt.  Queue not empty: pop the head,
count it as processed unless it is a redelivery, increment `seq_num`, call `insert` and
apply its verdict.  Queue empty with a pending batch: call `flush` and apply its verdict
to the batch.  `batch_size` is incremented for the popped message before `insert` sees
it and is cleared by every verdict other than `QUEUED`, so between turns it counts the
`QUEUED` verdicts since the last other outcome, and during the call it counts the
message at hand too: the batched test callbacks flush on `batch_size == 5` and expect
`flush_size == 10` for 10 messages.  The `flush_lines` watermark is the SQL consumer's:
its `insert` commits by itself and reports the verdict of the batch. -/
def worker_turn {σ : Type} (cb : WorkerCallbacks σ) (w : Worker σ) : Worker σ :=
  if !w.connected then
    match cb.connect with
    | none => { w with connected := true }
    | some connect =>
      let r := connect w.super w.self
      { w with connected := r.1, self := r.2 }
  else
    match w.queue with
    | msg :: rest =>
      let w := { w with
        queue := rest,
        rewound := w.rewound - 1,
        pending := w.pending ++ [msg],
        super := { w.super with
          processed_messages := w.super.processed_messages + (if w.rewound = 0 then 1 else 0),
          seq_num := w.super.seq_num + 1,
          batch_size := w.super.batch_size + 1 } }
      let r := cb.insert w.super w.self msg
      worker_process_result cb r.1 { w with self := r.2 }
    | [] =>
      if w.pending.isEmpty then w
      else
        match cb.flush with
        | none => w
        | some flush =>
          let r := flush w.super w.self
          worker_process_result cb r.1 { w with self := r.2 }

/-- Modelled from the spec: `fuel` turns of the worker loop of `logthrdestdrv.c`. -/
def worker_run {σ : Type} (cb : WorkerCallbacks σ) : Nat → Worker σ → Worker σ
  | 0, w => w
  | fuel + 1, w => worker_run cb fuel (worker_turn cb w)

/-- Modelled from the spec: a freshly initialised threaded driver
(`log_threaded_dest_driver_init_instance` of `logthrdestdrv.c`): `seq_num` starts at 1,
the counters at 0, `retries_max` is 3.  The sleep `time_reopen`, which the model does
not perform, is 0 as in the tests. -/
def log_threaded_dest_driver_init_instance : LogThreadedDestDriver :=
  { persist_name := none, time_reopen := 0, retries_max := 3, retries_counter := 0,
    batch_size := 0, seq_num := 1, processed_messages := 0, written_messages := 0,
    dropped_messages := 0 }

/-- Modelled from the spec: the worker at start, before its first `connect`, with the
messages `msgs` in its queue. -/
def worker_start {σ : Type} (super : LogThreadedDestDriver) (self : σ)
    (msgs : List LogMessage) : Worker σ :=
  { super := super, queue := msgs, rewound := 0, pending := [], connected := false,
    self := self }

/-- Modelled from the spec: what happens to the worker of `logthrdestdrv.c` from outside
its callbacks; a producer enqueues a message, or the worker takes a turn. -/
inductive worker_event where
  | enqueue (msg : LogMessage)
  | turn

/-- Modelled from the spec: the effect of one event on the worker of `logthrdestdrv.c`;
`enqueue` appends the message to the queue. -/
def worker_apply {σ : Type} (cb : WorkerCallbacks σ) (w : Worker σ) :
    worker_event → Worker σ
  | worker_event.enqueue msg => { w with queue := w.queue ++ [msg] }
  | worker_event.turn => worker_turn cb w

/-! ### The test driver of `test_logthrdestdrv.c` -/

/-- The fields that `TestThreadedDestDriver` adds to its `super`. -/
structure TestThreadedDestDriver where
  insert_counter : Int
  flush_counter : Int
  failure_counter : Int
  prev_flush_size : Int
  flush_size : Int
  deriving DecidableEq, Repr

/-- The test driver made by `test_threaded_dd_new` (`g_new0`). -/
def test_threaded_dd_new : TestThreadedDestDriver :=
  { insert_counter := 0, flush_counter := 0, failure_counter := 0, prev_flush_size := 0,
    flush_size := 0 }

/-- The test callback `_insert_single_message_success`. -/
def _insert_single_message_success (_s : LogThreadedDestDriver)
    (self : TestThreadedDestDriver) (_msg : LogMessage) :
    worker_insert_result_t × TestThreadedDestDriver :=
  (WORKER_INSERT_RESULT_SUCCESS, { self with insert_counter := self.insert_counter + 1 })

/-- The test callback `_insert_single_message_drop`. -/
def _insert_single_message_drop (_s : LogThreadedDestDriver)
    (self : TestThreadedDestDriver) (_msg : LogMessage) :
    worker_insert_result_t × TestThreadedDestDriver :=
  (WORKER_INSERT_RESULT_DROP, { self with insert_counter := self.insert_counter + 1 })

/-- The test callback `_insert_single_message_connection_failure`, with the number of
failing calls (10 in the test) as a parameter. -/
def _insert_single_message_connection_failure (failures : Int) (_s : LogThreadedDestDriver)
    (self : TestThreadedDestDriver) (_msg : LogMessage) :
    worker_insert_result_t × TestThreadedDestDriver :=
  (if self.insert_counter < failures then WORKER_INSERT_RESULT_NOT_CONNECTED
   else WORKER_INSERT_RESULT_SUCCESS,
   { self with insert_counter := self.insert_counter + 1 })

/-- The test callback `_insert_single_message_error_until_drop`. -/
def _insert_single_message_error_until_drop (_s : LogThreadedDestDriver)
    (self : TestThreadedDestDriver) (_msg : LogMessage) :
    worker_insert_result_t × TestThreadedDestDriver :=
  (WORKER_INSERT_RESULT_ERROR, { self with insert_counter := self.insert_counter + 1 })

/-- The test callback `_insert_single_message_error_until_successful`. -/
def _insert_single_message_error_until_successful (_s : LogThreadedDestDriver)
    (self : TestThreadedDestDriver) (_msg : LogMessage) :
    worker_insert_result_t × TestThreadedDestDriver :=
  (if self.insert_counter < 4 then WORKER_INSERT_RESULT_ERROR
   else WORKER_INSERT_RESULT_SUCCESS,
   { self with insert_counter := self.insert_counter + 1 })

/-- The callbacks of a test case that sets only `worker.insert`. -/
def test_callbacks
    (insert : LogThreadedDestDriver → TestThreadedDestDriver → LogMessage →
      worker_insert_result_t × TestThreadedDestDriver) :
    WorkerCallbacks TestThreadedDestDriver :=
  { connect := none, disconnect := none, insert := insert, flush := none }

/-! ## Definitions used in the statements -/

/-- The character class `[A-Za-z0-9._]` of the specification. -/
def in_identifier_class (c : Char) : Prop :=
  ('A' ≤ c ∧ c ≤ 'Z') ∨ ('a' ≤ c ∧ c ≤ 'z') ∨ ('0' ≤ c ∧ c ≤ '9') ∨ c = '.' ∨ c = '_'

instance in_identifier_class_decidable : DecidablePred in_identifier_class := fun c => by
  unfold in_identifier_class
  infer_instance

/-- The configuration part of the driver: everything but the transaction flag, the
statements issued and the confirmed tables. -/
def config_of (self : AFSqlDestDriver) : AFSqlDestDriver :=
  { self with transaction_active := false, queries := [], syslogng_conform_tables := [] }

/-- Whether the connection of `self` answers the statement `q` with a result. -/
def statement_succeeds (self : AFSqlDestDriver) (q : String) : Bool :=
  (afsql_dd_run_query self q false).1.isSome

/-- The table name and the driver state with which `afsql_dd_insert` reaches its INSERT
statement: the schema check succeeded and the transaction it may have had to begin has
begun.  `none` when the function leaves through `error` before that. -/
def afsql_dd_insert_reaches_query (MD5 : String → List Nat) (self : AFSqlDestDriver)
    (msg : LogMessage) : Option (String × AFSqlDestDriver) :=
  let t := afsql_dd_ensure_accessible_database_table MD5 self msg
  match t.1 with
  | none => none
  | some table =>
    let b := if afsql_dd_should_begin_new_transaction t.2 then afsql_dd_begin_transaction t.2
      else (true, t.2)
    if !b.1 then none else some (table, b.2)

/-! ## Concrete drivers used as inputs -/

/-- A template without macros: it renders its own text for every message. -/
def literal_template (text : String) : LogTemplate :=
  { template := text, format := fun _ _ => text }

/-- The C function `afsql_dd_new`; the template compiler `log_template_compile` is a
parameter. -/
def afsql_dd_new (log_template_compile : String → LogTemplate) : AFSqlDestDriver :=
  { super := log_threaded_dest_driver_init_instance,
    type := "mysql", host := "", port := "", user := "syslog-ng", password := "",
    database := "logs", encoding := "UTF-8",
    create_statement_append := none, columns := none, values := none, indexes := [],
    table := log_template_compile "messages", fields := none, null_value := none,
    flags := 0, flush_lines := -1, num_retries := MAX_FAILED_ATTEMPTS,
    ignore_tns_config := false,
    session_statements := [], transaction_active := false, failed_message_counter := 0,
    syslogng_conform_tables := [], dbi_ctx := none, queries := [] }

/-- A server that accepts every statement; it quotes a string by enclosing it in
apostrophes. -/
def accepting_server : dbi_conn :=
  { query := fun _ _ => some { fields := [] },
    quote_string_copy := fun v => some ("'" ++ v ++ "'"),
    ping := fun _ => true }

/-- A server that rejects every INSERT statement and accepts the others; `alive` is what
it answers to a ping. -/
def insert_rejecting_server (alive : Bool) : dbi_conn :=
  { query := fun _ q => if "INSERT".data.isPrefixOf q.data then none else some { fields := [] },
    quote_string_copy := fun v => some ("'" ++ v ++ "'"),
    ping := fun _ => alive }

/-- A digest function for inputs that create no Oracle index. -/
def example_MD5 : String → List Nat := fun _ => List.replicate 16 0

def example_msg : LogMessage := { values := [("MESSAGE", "hello")] }

/-- A connected driver with one column `message`, whose table `messages` is already
confirmed. -/
def example_driver (conn : dbi_conn) (flags : Nat) (flush_lines batch_size : Int)
    (transaction_active : Bool) : AFSqlDestDriver :=
  { afsql_dd_new literal_template with
    super := { log_threaded_dest_driver_init_instance with batch_size := batch_size },
    fields := some [{ flags := 0, name := "message", type := "text",
                      value := some (literal_template "hello") }],
    flags := flags, flush_lines := flush_lines, transaction_active := transaction_active,
    syslogng_conform_tables := ["messages"], dbi_ctx := some conn }

/-! ## States of the single-message test cases -/

/-- The worker of the test `error_result_retries_sending_retry_max_times_and_then_drops`
after `k` failed attempts on its only message, the message rewound (when `k > 0`) and
waiting at the head of the queue. -/
def error_retry_state (sup : LogThreadedDestDriver) (t : TestThreadedDestDriver)
    (msg : LogMessage) (n k : Nat) : Worker TestThreadedDestDriver :=
  { super := { sup with
      retries_max := n, retries_counter := k, batch_size := 0,
      processed_messages := sup.processed_messages + (if k = 0 then 0 else 1),
      seq_num := sup.seq_num + k },
    queue := [msg], rewound := if k = 0 then 0 else 1, pending := [], connected := true,
    self := { t with insert_counter := t.insert_counter + k } }

/-- The worker of the same test once the message has been dropped after `n` attempts. -/
def error_dropped_state (sup : LogThreadedDestDriver) (t : TestThreadedDestDriver)
    (n : Nat) : Worker TestThreadedDestDriver :=
  { super := { sup with
      retries_max := n, retries_counter := 0, batch_size := 0,
      processed_messages := sup.processed_messages + 1,
      dropped_messages := sup.dropped_messages + 1,
      seq_num := sup.seq_num + n },
    queue := [], rewound := 0, pending := [], connected := true,
    self := { t with insert_counter := t.insert_counter + n } }

/-- The worker of the test `connection_failure_is_considered_an_error_and_retried_indefinitely`
after `k` NOT_CONNECTED verdicts on its only message (rewound when `k > 0`), connected or
not. -/
def not_connected_state (sup : LogThreadedDestDriver) (msg : LogMessage) (k : Nat)
    (connected : Bool) : Worker TestThreadedDestDriver :=
  { super := { sup with
      retries_counter := 0, batch_size := 0,
      processed_messages := sup.processed_messages + (if k = 0 then 0 else 1),
      seq_num := sup.seq_num + k },
    queue := [msg], rewound := if k = 0 then 0 else 1, pending := [], connected := connected,
    self := { test_threaded_dd_new with insert_counter := k } }

/-- The worker of the same test once the message has been written, after `n` failures. -/
def not_connected_written_state (sup : LogThreadedDestDriver) (n : Nat) :
    Worker TestThreadedDestDriver :=
  { super := { sup with
      retries_counter := 0, batch_size := 0,
      processed_messages := sup.processed_messages + 1,
      written_messages := sup.written_messages + 1,
      seq_num := sup.seq_num + (n + 1 : Nat) },
    queue := [], rewound := 0, pending := [], connected := true,
    self := { test_threaded_dd_new with insert_counter := (n + 1 : Nat) } }

/-- The states the worker of the connection-failure test goes through. -/
def not_connected_reachable (sup : LogThreadedDestDriver) (msg : LogMessage) (n : Nat)
    (w : Worker TestThreadedDestDriver) : Prop :=
  w = not_connected_written_state sup n ∨
    ∃ k c, k ≤ n ∧ w = not_connected_state sup msg k c

/-- Every message popped so far is written, dropped, pending, or rewound into the queue;
and the rewound messages are in the queue. -/
def worker_accounted {σ : Type} (w : Worker σ) : Prop :=
  w.super.processed_messages =
    w.super.written_messages + w.super.dropped_messages + w.pending.length + w.rewound ∧
  w.rewound ≤ w.queue.length

/-! ## Initialisation, names and option checks -/

/-- The glib function `g_snprintf (buf, n, ...)`: the formatted text, cut to the `n - 1`
characters that fit in the buffer before the terminating NUL. -/
def g_snprintf (n : Nat) (formatted : String) : String :=
  String.mk (formatted.data.take (n - 1))

/-- The C function `afsql_dd_check_port`; `len` is taken to fit its `int`. -/
def afsql_dd_check_port (port : String) : Bool :=
  port.data.all (fun c => !(decide (c < '0') || decide (c > '9')))

/-- The C function `afsql_dd_lookup_flag`. -/
def afsql_dd_lookup_flag (flag : String) : Nat :=
  if flag == "explicit-commits" || flag == "explicit_commits" then AFSQL_DDF_EXPLICIT_COMMITS
  else if flag == "dont-create-tables" || flag == "dont_create_tables" then
    AFSQL_DDF_DONT_CREATE_TABLES
  else 0

/-- The C function `afsql_dd_format_stats_instance`: the text is formatted into a static
buffer of 64 characters. -/
def afsql_dd_format_stats_instance (self : AFSqlDestDriver) : String :=
  g_snprintf 64
    (self.type ++ "," ++ self.host ++ "," ++ self.port ++ "," ++ self.database ++ "," ++
      self.table.template)

/-- The C function `afsql_dd_format_persist_name`: the text is formatted into a static
buffer of 256 characters. -/
def afsql_dd_format_persist_name (self : AFSqlDestDriver) : String :=
  match self.super.persist_name with
  | some persist_name => g_snprintf 256 ("afsql_dd." ++ persist_name)
  | none =>
    g_snprintf 256
      ("afsql_dd(" ++ self.type ++ "," ++ self.host ++ "," ++ self.port ++ "," ++
        self.database ++ "," ++ self.table.template ++ ")")

/-- The name and type that the loop of `afsql_dd_init` takes from a column entry:
`strchr (col, ' ')` splits off the name, the spaces after it are skipped, and what
follows is the type, `text` when nothing follows or there is no space. -/
def afsql_dd_init_column (col : String) : String × String :=
  match col.data.dropWhile (fun c => c != ' ') with
  | [] => (col, "text")
  | space =>
    (String.mk (col.data.takeWhile (fun c => c != ' ')),
     match space.dropWhile (fun c => c == ' ') with
     | [] => "text"
     | type => String.mk type)

/-- An entry of the array made by `g_new0 (AFSqlField, len_cols)`; the NULL strings of a
zeroed entry are modelled as empty. -/
def AFSqlField.zero : AFSqlField :=
  { flags := 0, name := "", type := "", value := none }

/-- The `for` loop of `afsql_dd_init` over the columns and values still to visit.  Returns
`none` when `g_assert_not_reached` aborts the process (a sentinel other than
`AFSQL_COLUMN_DEFAULT`), otherwise whether the loop ran to its end and the entries it
wrote, the entry of a refused column included. -/
def afsql_dd_init_fields (log_template_compile : String → LogTemplate) :
    List String → List afsql_value → Option (Bool × List AFSqlField)
  | col :: cols, value :: values =>
    let nt := afsql_dd_init_column col
    if !_is_sql_identifier_sanitized nt.1 then
      some (false, [{ AFSqlField.zero with name := nt.1, type := nt.2 }])
    else
      match value with
      | afsql_value.template text =>
        match afsql_dd_init_fields log_template_compile cols values with
        | none => none
        | some r =>
          some (r.1, { flags := 0, name := nt.1, type := nt.2,
                       value := some (log_template_compile text) } :: r.2)
      | afsql_value.sentinel n =>
        if n = AFSQL_COLUMN_DEFAULT then
          match afsql_dd_init_fields log_template_compile cols values with
          | none => none
          | some r =>
            some (r.1, { flags := 0 ||| AFSQL_FF_DEFAULT, name := nt.1, type := nt.2,
                         value := none } :: r.2)
        else none
  | _, _ => some (true, [])

/-- What `afsql_dd_init` takes from outside the driver: the result of the base class
`log_threaded_dest_driver_init_method`, `cfg->flush_lines`, the template compiler, and
the return code of `dbi_initialize_r`. -/
structure afsql_init_env where
  log_threaded_dest_driver_init_method : Bool
  cfg_flush_lines : Int
  log_template_compile : String → LogTemplate
  dbi_initialize_r : Int

/-- The C function `afsql_dd_init`.  `dbi_initialized` is the static flag of the file;
the result is `none` when the process is aborted by `g_assert_not_reached`, otherwise
the return value, the driver and the flag.  An empty `GList` is the NULL pointer. -/
def afsql_dd_init (env : afsql_init_env) (dbi_initialized : Bool) (self : AFSqlDestDriver) :
    Option (Bool × AFSqlDestDriver × Bool) :=
  if !env.log_threaded_dest_driver_init_method then some (false, self, dbi_initialized)
  else if (self.columns.getD []).isEmpty || (self.values.getD []).isEmpty then
    some (false, self, dbi_initialized)
  else
    let parsed : Option (Bool × AFSqlDestDriver) :=
      match self.fields with
      | some _ => some (true, self)
      | none =>
        let len_cols := (self.columns.getD []).length
        let len_values := (self.values.getD []).length
        if len_cols != len_values then some (false, self)
        else
          match afsql_dd_init_fields env.log_template_compile (self.columns.getD [])
              (self.values.getD []) with
          | none => none
          | some r =>
            some (r.1, { self with
              fields := some (r.2 ++ List.replicate (len_cols - r.2.length) AFSqlField.zero) })
    match parsed with
    | none => none
    | some (false, self) => some (false, self, dbi_initialized)
    | some (true, self) =>
      let self := if self.flush_lines == -1 then { self with flush_lines := env.cfg_flush_lines }
        else self
      if !dbi_initialized then
        if env.dbi_initialize_r < 0 then some (false, self, dbi_initialized)
        else if env.dbi_initialize_r == 0 then some (false, self, dbi_initialized)
        else some (true, self, true)
      else some (true, self, dbi_initialized)

/-- The text that `afsql_dd_format_stats_instance` formats, before it is cut to the
buffer. -/
def stats_instance_text (self : AFSqlDestDriver) : String :=
  self.type ++ "," ++ self.host ++ "," ++ self.port ++ "," ++ self.database ++ "," ++
    self.table.template

/-- The text that `afsql_dd_format_persist_name` formats, before it is cut to the
buffer. -/
def persist_name_text (self : AFSqlDestDriver) : String :=
  match self.super.persist_name with
  | some persist_name => "afsql_dd." ++ persist_name
  | none =>
    "afsql_dd(" ++ self.type ++ "," ++ self.host ++ "," ++ self.port ++ "," ++
      self.database ++ "," ++ self.table.template ++ ")"

/-- A driver as `afsql_dd_new` makes it, with the given host, database and table
template. -/
def named_driver (host database table : String) : AFSqlDestDriver :=
  { afsql_dd_new literal_template with
    host := host, database := database, table := literal_template table }

/-- The index name of the specification: `<table>_<column>_idx`, and for type `oracle` with
`len(table) + len(column) > 25` the first 30 hexadecimal digits of the MD5 digest of
`<table>_<column>` with the first one replaced by `i`. -/
def index_name_spec (MD5 : String → List Nat) (type table column : String) : String :=
  if type = "oracle" ∧ table.length + column.length > 25 then
    String.mk ('i' :: (((MD5 (table ++ "_" ++ column)).flatMap hex_byte).take 30).drop 1)
  else table ++ "_" ++ column ++ "_idx"


/-- The reading of a column entry in the specification: without a space the entry is the
name and the type is `text`; otherwise the name is the text before the first space, a run
of spaces follows, and the type is what comes after the run, `text` if nothing does. -/
def column_entry_spec (entry name type : String) : Prop :=
  (' ' ∉ entry.data ∧ name = entry ∧ type = "text") ∨
  (∃ (k : Nat) (rest : List Char),
    entry.data = name.data ++ List.replicate (k + 1) ' ' ++ rest ∧
    ' ' ∉ name.data ∧ rest.head? ≠ some ' ' ∧
    type = if rest = [] then "text" else String.mk rest)

/-- The field `f` is what `afsql_dd_init` makes of the column entry `col` and the value
entry `value`: name and type read from the column, and either the compiled template of
the value or, for the sentinel `DEFAULT`, the flag `AFSQL_FF_DEFAULT` and no template. -/
def field_comes_from (log_template_compile : String → LogTemplate) (col : String)
    (value : afsql_value) (f : AFSqlField) : Prop :=
  column_entry_spec col f.name f.type ∧
  ((∃ text, value = afsql_value.template text ∧ f.value = some (log_template_compile text) ∧
      f.flags = 0) ∨
   (value = afsql_value.sentinel AFSQL_COLUMN_DEFAULT ∧ f.value = none ∧
      f.flags = AFSQL_FF_DEFAULT))

/-- A field as `afsql_dd_init` makes it: flagged `DEFAULT` without template, or unflagged
with a template. -/
def field_from_init (f : AFSqlField) : Prop :=
  (f.flags = AFSQL_FF_DEFAULT ∧ f.value = none) ∨ (f.flags = 0 ∧ f.value.isSome = true)

/-- The fields that are not `DEFAULT`, in their order. -/
def non_default_fields (fields : List AFSqlField) : List AFSqlField :=
  fields.filter (fun f => f.flags &&& AFSQL_FF_DEFAULT == 0)

/-- The value entries as the configuration grammar makes them: templates and the sentinel
`DEFAULT`. -/
def values_well_formed (values : List afsql_value) : Prop :=
  ∀ v ∈ values, (∃ text, v = afsql_value.template text) ∨
    v = afsql_value.sentinel AFSQL_COLUMN_DEFAULT


/-- Some column entry has, in the part before its first space, a character outside
`[A-Za-z0-9._]`. -/
def has_invalid_column_name (columns : List String) : Prop :=
  ∃ col ∈ columns, ∃ ch ∈ col.data.takeWhile (fun c => c != ' '), ¬ in_identifier_class ch

/-- An environment in which the base class initialises, DBI loads three drivers and
templates are compiled as literals. -/
def example_init_env : afsql_init_env :=
  { log_threaded_dest_driver_init_method := true, cfg_flush_lines := 100,
    log_template_compile := literal_template, dbi_initialize_r := 3 }

/-- A driver as `afsql_dd_new` makes it, after `afsql_dd_set_columns` and
`afsql_dd_set_values`. -/
def configured_driver (columns : List String) (values : List afsql_value) :
    AFSqlDestDriver :=
  { afsql_dd_new literal_template with columns := some columns, values := some values }

/-- The rendering of a field's template for a message, as `afsql_dd_build_insert_command`
asks for it (empty for a field without template). -/
def field_rendering (self : AFSqlDestDriver) (msg : LogMessage) (f : AFSqlField) : String :=
  match f.value with
  | some tmpl => tmpl.format msg self.super.seq_num
  | none => ""

/-- The rendered value equals the configured `null_value`. -/
def matches_null_value (self : AFSqlDestDriver) (value : String) : Prop :=
  ∃ null_value, self.null_value = some null_value ∧ value = null_value

/-- The output of the connection's string-quoting primitive for `value`, `none` when
there is no connection or the primitive leaves no copy. -/
def quoting_primitive (self : AFSqlDestDriver) (value : String) : Option String :=
  match self.dbi_ctx with
  | some conn => conn.quote_string_copy value
  | none => none

/-- The columns and values of the example configuration: typed and untyped entries, a
run of spaces, a trailing space and a `DEFAULT` value. -/
def example_columns : List String := ["date datetime", "host   varchar(32)", "id", "msg "]

def example_values : List afsql_value :=
  [afsql_value.template "$R_DATE", afsql_value.template "$HOST",
   afsql_value.sentinel AFSQL_COLUMN_DEFAULT, afsql_value.template "$MSG"]

/-- The fields that `afsql_dd_init` makes of the example configuration. -/
def example_fields : List AFSqlField :=
  [{ flags := 0, name := "date", type := "datetime",
     value := some (literal_template "$R_DATE") },
   { flags := 0, name := "host", type := "varchar(32)",
     value := some (literal_template "$HOST") },
   { flags := AFSQL_FF_DEFAULT, name := "id", type := "text", value := none },
   { flags := 0, name := "msg", type := "text", value := some (literal_template "$MSG") }]


/-! ## Setters, disconnect and further inputs -/

/-- The C function `afsql_dd_set_type`: the alias `mssql` is stored as `freetds`. -/
def afsql_dd_set_type (self : AFSqlDestDriver) (type : String) : AFSqlDestDriver :=
  let type := if type == "mssql" then s_freetds else type
  { self with type := type }

/-- The C function `afsql_dd_set_retries`. -/
def afsql_dd_set_retries (self : AFSqlDestDriver) (num_retries : Int) : AFSqlDestDriver :=
  { self with num_retries := num_retries }

/-- The C function `afsql_dd_disconnect`: the connection is closed and the handle set to
NULL. -/
def afsql_dd_disconnect (self : AFSqlDestDriver) : AFSqlDestDriver :=
  { self with dbi_ctx := none }

/-- The statement with which `afsql_dd_begin_transaction` begins a transaction for a
driver type, `none` for `oracle`, which begins none. -/
def begin_statement (type : String) : Option String :=
  if type = "oracle" then none
  else if type = "freetds" then some "BEGIN TRANSACTION"
  else some "BEGIN"

/-- A server without the table: it rejects the probe `SELECT`, accepts `CREATE TABLE`,
rejects the `COMMIT` that directly follows a `CREATE TABLE`, answers an `INSERT` as
`insert_accepted` tells, and accepts every other statement. -/
def create_commit_failing_server (insert_accepted : Bool) : dbi_conn :=
  { query := fun history q =>
      if "SELECT".data.isPrefixOf q.data then none
      else if "INSERT".data.isPrefixOf q.data && !insert_accepted then none
      else if q == "COMMIT" &&
          (match history.getLast? with
           | some last => "CREATE TABLE".data.isPrefixOf last.data
           | none => false) then none
      else some { fields := [] },
    quote_string_copy := fun v => some ("'" ++ v ++ "'"),
    ping := fun _ => true }

/-- A connected driver with one column `message` and no table confirmed yet. -/
def unconfirmed_driver (conn : dbi_conn) : AFSqlDestDriver :=
  { afsql_dd_new literal_template with
    fields := some [{ flags := 0, name := "message", type := "text",
                      value := some (literal_template "hello") }],
    flush_lines := 3, dbi_ctx := some conn }

/-- A configuration whose second column name is not a valid SQL identifier. -/
def invalid_name_driver : AFSqlDestDriver :=
  configured_driver ["date datetime", "ho-st varchar(32)", "msg"]
    [afsql_value.template "$R_DATE", afsql_value.template "$HOST",
     afsql_value.template "$MSG"]

/-- The driver `invalid_name_driver` as the refusing `afsql_dd_init` leaves it: the field
array allocated, filled up to the refused column and zero after it. -/
def invalid_name_driver_refused : AFSqlDestDriver :=
  { invalid_name_driver with
    fields := some
      [{ flags := 0, name := "date", type := "datetime",
         value := some (literal_template "$R_DATE") },
       { flags := 0, name := "ho-st", type := "varchar(32)", value := none },
       AFSqlField.zero] }


/-- The C function `afsql_dd_set_values`: the list replaces the old one; the field array
is not touched. -/
def afsql_dd_set_values (self : AFSqlDestDriver) (values : List afsql_value) :
    AFSqlDestDriver :=
  { self with values := some values }

theorem char_le_iff_toNat (a b : Char) : a ≤ b ↔ a.toNat ≤ b.toNat := Iff.rfl

theorem char_eq_iff_toNat (a b : Char) : a = b ↔ a.toNat = b.toNat := by
  constructor
  · intro h; rw [h]
  · intro h
    have := congrArg Char.ofNat h
    simpa [Char.ofNat_toNat] using this

theorem g_ascii_tolower_upper (c : Char) (h1 : 65 ≤ c.toNat) (h2 : c.toNat ≤ 90) :
    (Char.ofNat (c.toNat + 32)).toNat = c.toNat + 32 := by
  generalize c.toNat = n at *
  interval_cases n <;> rfl

theorem _sql_identifier_is_valid_char_iff (c : Char) :
    _sql_identifier_is_valid_char c = true ↔ in_identifier_class c := by
  unfold _sql_identifier_is_valid_char g_ascii_tolower in_identifier_class
  have hA : ('A' : Char).toNat = 65 := rfl
  have hZ : ('Z' : Char).toNat = 90 := rfl
  have ha : ('a' : Char).toNat = 97 := rfl
  have hz : ('z' : Char).toNat = 122 := rfl
  have h0 : ('0' : Char).toNat = 48 := rfl
  have h9 : ('9' : Char).toNat = 57 := rfl
  have hd : ('.' : Char).toNat = 46 := rfl
  have hu : ('_' : Char).toNat = 95 := rfl
  by_cases hU : 'A' ≤ c ∧ c ≤ 'Z'
  · have hU2 := hU
    rw [char_le_iff_toNat, char_le_iff_toNat, hA, hZ] at hU2
    have ht := g_ascii_tolower_upper c hU2.1 hU2.2
    simp only [hU, and_self, if_true, Bool.or_eq_true, Bool.and_eq_true, decide_eq_true_eq,
      beq_iff_eq, char_le_iff_toNat, char_eq_iff_toNat, ht, hA, hZ, ha, hz, h0, h9, hd, hu,
      true_or, iff_true]
    omega
  · simp only [hU, if_false, Bool.or_eq_true, Bool.and_eq_true, decide_eq_true_eq,
      beq_iff_eq, false_or]
    rw [char_le_iff_toNat, char_le_iff_toNat, hA, hZ] at hU
    simp only [char_le_iff_toNat, char_eq_iff_toNat, ha, hz, h0, h9, hd, hu]
    omega

theorem _sanitize_char_valid (c : Char) :
    _sql_identifier_is_valid_char (if _sql_identifier_is_valid_char c then c else '_') = true := by
  by_cases h : _sql_identifier_is_valid_char c = true
  · simp [h]
  · simp only [h]
    rfl

theorem _sanitize_sql_identifier_sanitized (s : String) :
    _is_sql_identifier_sanitized (_sanitize_sql_identifier s) = true := by
  unfold _is_sql_identifier_sanitized _sanitize_sql_identifier
  simp only [List.all_eq_true, List.mem_map]
  rintro x ⟨c, _, rfl⟩
  exact _sanitize_char_valid c

theorem _sanitize_sql_identifier_of_sanitized (s : String)
    (h : _is_sql_identifier_sanitized s = true) : _sanitize_sql_identifier s = s := by
  unfold _is_sql_identifier_sanitized at h
  unfold _sanitize_sql_identifier
  have hmap : s.data.map (fun c => if _sql_identifier_is_valid_char c then c else '_') = s.data := by
    have hall := List.all_eq_true.mp h
    calc s.data.map (fun c => if _sql_identifier_is_valid_char c then c else '_')
        = s.data.map id := List.map_congr_left (fun c hc => by simp [hall c hc])
      _ = s.data := List.map_id _
  rw [hmap]

/-! ## Frame lemmas: what the SQL functions leave unchanged -/

@[simp]
theorem config_of_run_query (self : AFSqlDestDriver) (q : String) (b : Bool) :
    config_of (afsql_dd_run_query self q b).2 = config_of self := rfl

@[simp]
theorem config_of_commit (self : AFSqlDestDriver) :
    config_of (afsql_dd_commit_transaction self).2 = config_of self := by
  unfold afsql_dd_commit_transaction
  dsimp only
  split_ifs <;> rfl

@[simp]
theorem config_of_begin (self : AFSqlDestDriver) :
    config_of (afsql_dd_begin_transaction self).2 = config_of self := by
  unfold afsql_dd_begin_transaction
  dsimp only
  split_ifs <;> rfl

@[simp]
theorem config_of_rollback (self : AFSqlDestDriver) :
    config_of (afsql_dd_rollback_transaction self).2 = config_of self := by
  unfold afsql_dd_rollback_transaction
  dsimp only
  split_ifs <;> rfl

@[simp]
theorem config_of_begin_new (self : AFSqlDestDriver) :
    config_of (afsql_dd_begin_new_transaction self).2 = config_of self := by
  unfold afsql_dd_begin_new_transaction
  dsimp only
  split_ifs <;> simp

@[simp]
theorem config_of_create_index (MD5 : String → List Nat) (self : AFSqlDestDriver)
    (t c : String) : config_of (afsql_dd_create_index MD5 self t c).2 = config_of self := rfl

@[simp]
theorem config_of_is_table_present (self : AFSqlDestDriver) (t : String) :
    config_of (_is_table_present self t).2 = config_of self := by
  unfold _is_table_present
  dsimp only
  split_ifs <;> simp

@[simp]
theorem config_of_create_indexes_of_column (MD5 : String → List Nat)
    (t n : String) (l : List String) (self : AFSqlDestDriver) :
    config_of (_create_indexes_of_column MD5 t n l self) = config_of self := by
  induction l generalizing self with
  | nil => rfl
  | cons a l ih =>
    unfold _create_indexes_of_column
    split_ifs <;> simp [ih]

@[simp]
theorem config_of_ensure_table_fields (MD5 : String → List Nat) (r : dbi_result)
    (t : String) (l : List AFSqlField) (b : Bool) (self : AFSqlDestDriver) :
    config_of (_ensure_table_fields MD5 r t l b self).2.2 = config_of self := by
  induction l generalizing self b with
  | nil => rfl
  | cons f l ih =>
    unfold _ensure_table_fields
    dsimp only
    split_ifs <;> simp [ih]

@[simp]
theorem config_of_ensure_table (MD5 : String → List Nat) (self : AFSqlDestDriver)
    (r : dbi_result) (t : String) :
    config_of (_ensure_table_is_syslogng_conform MD5 self r t).2 = config_of self := by
  unfold _ensure_table_is_syslogng_conform
  dsimp only
  split_ifs <;> simp

@[simp]
theorem config_of_table_create_indexes_loop (MD5 : String → List Nat)
    (t : String) (l : List String) (self : AFSqlDestDriver) :
    config_of (_table_create_indexes_loop MD5 t l self).2 = config_of self := by
  induction l generalizing self with
  | nil => rfl
  | cons a l ih =>
    unfold _table_create_indexes_loop
    dsimp only
    split_ifs <;> simp [ih]

@[simp]
theorem config_of_table_create_indexes (MD5 : String → List Nat)
    (self : AFSqlDestDriver) (t : String) :
    config_of (_table_create_indexes MD5 self t).2 = config_of self := by
  unfold _table_create_indexes
  dsimp only
  split_ifs <;> simp

@[simp]
theorem config_of_table_create (self : AFSqlDestDriver) (t : String) :
    config_of (_table_create self t).2 = config_of self := by
  unfold _table_create
  dsimp only
  split_ifs <;> simp

@[simp]
theorem config_of_remember (self : AFSqlDestDriver) (t : String) :
    config_of (_remember_table_as_syslogng_conform self t) = config_of self := rfl

@[simp]
theorem config_of_ensure_conform (MD5 : String → List Nat) (self : AFSqlDestDriver)
    (t : String) :
    config_of (afsql_dd_ensure_table_is_syslogng_conform MD5 self t).2.2 = config_of self := by
  unfold afsql_dd_ensure_table_is_syslogng_conform
  dsimp only
  cases h : (_is_table_present self (_sanitize_sql_identifier t)).1 <;>
    (dsimp only; split_ifs <;> simp)

@[simp]
theorem config_of_ensure_accessible (MD5 : String → List Nat) (self : AFSqlDestDriver)
    (msg : LogMessage) :
    config_of (afsql_dd_ensure_accessible_database_table MD5 self msg).2 = config_of self := by
  unfold afsql_dd_ensure_accessible_database_table
  dsimp only
  split_ifs <;> simp

theorem fields_of_config {s s' : AFSqlDestDriver} (h : config_of s' = config_of s) :
    s'.flags = s.flags ∧ s'.flush_lines = s.flush_lines ∧ s'.super = s.super ∧
    s'.table = s.table ∧ s'.dbi_ctx = s.dbi_ctx ∧ s'.type = s.type ∧ s'.fields = s.fields ∧
    s'.null_value = s.null_value := by
  have h1 := congrArg AFSqlDestDriver.flags h
  have h2 := congrArg AFSqlDestDriver.flush_lines h
  have h3 := congrArg AFSqlDestDriver.super h
  have h4 := congrArg AFSqlDestDriver.table h
  have h5 := congrArg AFSqlDestDriver.dbi_ctx h
  have h6 := congrArg AFSqlDestDriver.type h
  have h7 := congrArg AFSqlDestDriver.fields h
  have h8 := congrArg AFSqlDestDriver.null_value h
  exact ⟨h1, h2, h3, h4, h5, h6, h7, h8⟩

/-! ## Sanitizing identifiers (C9) -/

/-- C9: for every string `s`, `_sanitize_sql_identifier s` has the length of `s`; at every
position a character of `s` in `[A-Za-z0-9._]` is unchanged and any other character is
replaced by an underscore; the result satisfies `_is_sql_identifier_sanitized`; and
sanitizing is idempotent. -/
theorem sanitize_sql_identifier_spec (s : String) :
    (_sanitize_sql_identifier s).length = s.length ∧
    (∀ i (h : i < s.data.length),
      (_sanitize_sql_identifier s).data[i]? =
        some (if in_identifier_class (s.data.get ⟨i, h⟩) then s.data.get ⟨i, h⟩ else '_')) ∧
    _is_sql_identifier_sanitized (_sanitize_sql_identifier s) = true ∧
    _sanitize_sql_identifier (_sanitize_sql_identifier s) = _sanitize_sql_identifier s := by
  refine ⟨?_, ?_, _sanitize_sql_identifier_sanitized s, ?_⟩
  · show (s.data.map _).length = s.data.length
    exact List.length_map _ _
  · intro i h
    simp only [_sanitize_sql_identifier, List.getElem?_map, List.getElem?_eq_getElem h,
      Option.map_some', List.get_eq_getElem]
    by_cases hv : _sql_identifier_is_valid_char s.data[i] = true
    · have := (_sql_identifier_is_valid_char_iff _).mp hv
      simp [hv, this]
    · have hn : ¬ in_identifier_class s.data[i] :=
        fun hc => hv ((_sql_identifier_is_valid_char_iff _).mpr hc)
      simp [hv, hn]
  · exact _sanitize_sql_identifier_of_sanitized _ (_sanitize_sql_identifier_sanitized s)

/-! ## The flush path (C4) -/

theorem afsql_dd_flush_eq (self : AFSqlDestDriver) :
    afsql_dd_flush self =
      (if self.transaction_active = false then (WORKER_INSERT_RESULT_SUCCESS, self)
       else if statement_succeeds self "COMMIT" = true then
         (WORKER_INSERT_RESULT_SUCCESS,
          { self with queries := self.queries ++ ["COMMIT"], transaction_active := false })
       else
         (WORKER_INSERT_RESULT_ERROR,
          { self with queries := self.queries ++ ["COMMIT", "ROLLBACK"],
                      transaction_active := false })) := by
  cases hta : self.transaction_active <;>
    cases hq : statement_succeeds self "COMMIT" <;>
    simp_all [afsql_dd_flush, afsql_dd_commit_transaction, afsql_dd_rollback_transaction,
      afsql_dd_run_query, statement_succeeds]

/-- C4: `afsql_dd_flush` returns SUCCESS exactly when no transaction is active (and then it
issues no statement and changes nothing) or the COMMIT of the active transaction
succeeds (and then COMMIT is the only statement issued); when the COMMIT fails it issues
ROLLBACK after it and returns ERROR.  In every case no transaction is active afterwards. -/
theorem afsql_dd_flush_spec (self : AFSqlDestDriver) :
    ((afsql_dd_flush self).1 = WORKER_INSERT_RESULT_SUCCESS ↔
      (self.transaction_active = false ∨ statement_succeeds self "COMMIT" = true)) ∧
    afsql_dd_flush self =
      (if self.transaction_active = false then (WORKER_INSERT_RESULT_SUCCESS, self)
       else if statement_succeeds self "COMMIT" = true then
         (WORKER_INSERT_RESULT_SUCCESS,
          { self with queries := self.queries ++ ["COMMIT"], transaction_active := false })
       else
         (WORKER_INSERT_RESULT_ERROR,
          { self with queries := self.queries ++ ["COMMIT", "ROLLBACK"],
                      transaction_active := false })) ∧
    (afsql_dd_flush self).2.transaction_active = false := by
  refine ⟨?_, afsql_dd_flush_eq self, ?_⟩ <;>
    (rw [afsql_dd_flush_eq]
     cases hta : self.transaction_active <;>
       cases hq : statement_succeeds self "COMMIT" <;> simp [hta])

/-! ## The insert path -/

theorem config_of_reaches_query {MD5 : String → List Nat} {self s : AFSqlDestDriver}
    {msg : LogMessage} {table : String}
    (h : afsql_dd_insert_reaches_query MD5 self msg = some (table, s)) :
    config_of s = config_of self := by
  unfold afsql_dd_insert_reaches_query at h
  dsimp only at h
  cases ht : (afsql_dd_ensure_accessible_database_table MD5 self msg).1 with
  | none => simp [ht] at h
  | some tb =>
    simp only [ht] at h
    split_ifs at h with h1 h2
    · injection h with h; injection h with _ h
      rw [← h]; simp
    · injection h with h; injection h with _ h
      rw [← h]; simp

theorem afsql_dd_insert_of_reaches {MD5 : String → List Nat} {self s : AFSqlDestDriver}
    {msg : LogMessage} {table : String}
    (h : afsql_dd_insert_reaches_query MD5 self msg = some (table, s)) :
    afsql_dd_insert MD5 self msg =
      (if statement_succeeds s (afsql_dd_build_insert_command s msg table) = true then
        (if afsql_dd_should_commit_transaction self = true then
          afsql_dd_flush (afsql_dd_run_query s (afsql_dd_build_insert_command s msg table) false).2
         else
          (if afsql_dd_is_transaction_handling_enabled self = true then
             WORKER_INSERT_RESULT_QUEUED
           else WORKER_INSERT_RESULT_SUCCESS,
           (afsql_dd_run_query s (afsql_dd_build_insert_command s msg table) false).2))
       else
        (WORKER_INSERT_RESULT_ERROR,
         (afsql_dd_run_query s (afsql_dd_build_insert_command s msg table) false).2)) := by
  have hc := fields_of_config (config_of_reaches_query h)
  have hcq : ∀ q, afsql_dd_should_commit_transaction (afsql_dd_run_query s q false).2 =
      afsql_dd_should_commit_transaction self := by
    intro q
    simp [afsql_dd_should_commit_transaction, afsql_dd_is_transaction_handling_enabled,
      afsql_dd_run_query, hc.1, hc.2.1, hc.2.2.1]
  have heq : ∀ q, afsql_dd_is_transaction_handling_enabled (afsql_dd_run_query s q false).2 =
      afsql_dd_is_transaction_handling_enabled self := by
    intro q
    simp [afsql_dd_is_transaction_handling_enabled, afsql_dd_run_query, hc.1]
  unfold afsql_dd_insert_reaches_query at h
  unfold afsql_dd_insert
  dsimp only at h ⊢
  cases ht : (afsql_dd_ensure_accessible_database_table MD5 self msg).1 with
  | none => simp [ht] at h
  | some tb =>
    simp only [ht] at h ⊢
    split_ifs at h with h1 h2
    · injection h with h; injection h with h3 h4
      subst h3
      rw [if_pos h1, h4]
      have hb : (afsql_dd_begin_transaction
          (afsql_dd_ensure_accessible_database_table MD5 self msg).2).1 = true := by
        simpa using h2
      cases hq : (afsql_dd_run_query s (afsql_dd_build_insert_command s msg tb) false).1 <;>
        simp [hb, hq, hcq, heq, statement_succeeds,
          afsql_dd_handle_insert_row_error_depending_on_connection_availability]
    · injection h with h; injection h with h3 h4
      subst h3
      rw [if_neg h1]
      dsimp only at h4 ⊢
      rw [h4]
      cases hq : (afsql_dd_run_query s (afsql_dd_build_insert_command s msg tb) false).1 <;>
        simp [hq, hcq, heq, statement_succeeds,
          afsql_dd_handle_insert_row_error_depending_on_connection_availability]

/-! ## The verdict of a successful INSERT (C1, C2) -/

/-- C1, counterexample: explicit-commits is set, the schema check and the INSERT succeed
and `batch_size + 1 >= flush_lines` (2 + 1 >= 3), yet `afsql_dd_insert` returns QUEUED and
the INSERT is the only statement it issues: no COMMIT.  And with `batch_size = flush_lines
= 3` but no transaction active, the flush path is taken and still no COMMIT is issued. -/
theorem afsql_dd_insert_commit_counterexample :
    afsql_dd_is_transaction_handling_enabled (example_driver accepting_server 1 3 2 true) = true ∧
    (example_driver accepting_server 1 3 2 true).super.batch_size + 1 ≥
      (example_driver accepting_server 1 3 2 true).flush_lines ∧
    (afsql_dd_insert example_MD5 (example_driver accepting_server 1 3 2 true) example_msg).1 =
      WORKER_INSERT_RESULT_QUEUED ∧
    (afsql_dd_insert example_MD5 (example_driver accepting_server 1 3 2 true)
      example_msg).2.queries = ["INSERT INTO messages (message) VALUES ('hello')"] ∧
    (example_driver accepting_server 1 3 3 false).super.batch_size + 1 ≥
      (example_driver accepting_server 1 3 3 false).flush_lines ∧
    (afsql_dd_insert example_MD5 (example_driver accepting_server 1 3 3 false) example_msg).1 =
      WORKER_INSERT_RESULT_SUCCESS ∧
    (afsql_dd_insert example_MD5 (example_driver accepting_server 1 3 3 false)
      example_msg).2.queries = ["INSERT INTO messages (message) VALUES ('hello')"] := by
  refine ⟨by decide, by decide, by decide, by decide, by decide, by decide, by decide⟩

/-- C1, amended: with explicit-commits set and the schema check and the INSERT succeeding,
`afsql_dd_insert` takes the flush path if and only if `batch_size >= flush_lines`
(`batch_size` on entry); on that path it issues COMMIT when a transaction is active, so
a COMMIT follows the INSERT if and only if `batch_size >= flush_lines` and a transaction
is active when the INSERT is run.  Off the flush path it returns QUEUED. -/
theorem afsql_dd_insert_commits_iff (MD5 : String → List Nat) (self s : AFSqlDestDriver)
    (msg : LogMessage) (table : String)
    (hexplicit : afsql_dd_is_transaction_handling_enabled self = true)
    (hreach : afsql_dd_insert_reaches_query MD5 self msg = some (table, s))
    (hinsert : statement_succeeds s (afsql_dd_build_insert_command s msg table) = true) :
    afsql_dd_insert MD5 self msg =
      (if self.super.batch_size ≥ self.flush_lines then
        afsql_dd_flush (afsql_dd_run_query s (afsql_dd_build_insert_command s msg table) false).2
       else
        (WORKER_INSERT_RESULT_QUEUED,
         (afsql_dd_run_query s (afsql_dd_build_insert_command s msg table) false).2)) ∧
    ("COMMIT" ∈ (afsql_dd_insert MD5 self msg).2.queries.drop (s.queries.length + 1) ↔
      (self.super.batch_size ≥ self.flush_lines ∧ s.transaction_active = true)) := by
  have hi := afsql_dd_insert_of_reaches hreach
  rw [if_pos hinsert] at hi
  have hsc : afsql_dd_should_commit_transaction self = true ↔
      self.super.batch_size ≥ self.flush_lines := by
    simp [afsql_dd_should_commit_transaction, hexplicit]
  have hfl := afsql_dd_flush_eq
    (afsql_dd_run_query s (afsql_dd_build_insert_command s msg table) false).2
  by_cases hw : self.super.batch_size ≥ self.flush_lines
  · rw [if_pos (hsc.mpr hw)] at hi
    refine ⟨by rw [hi, if_pos hw], ?_⟩
    rw [hi, hfl]
    cases hta : s.transaction_active <;>
      cases hq : statement_succeeds
        (afsql_dd_run_query s (afsql_dd_build_insert_command s msg table) false).2 "COMMIT" <;>
      simp [afsql_dd_run_query, hta, hq, hw]
  · rw [if_neg (fun h => hw (hsc.mp h)), hexplicit] at hi
    refine ⟨by rw [hi, if_neg hw]; rfl, ?_⟩
    rw [hi]
    simp [afsql_dd_run_query, hw]

/-- Witness of C1 (amended): with `batch_size = flush_lines = 3` and an active transaction
the INSERT is followed by COMMIT. -/
theorem afsql_dd_insert_commits_iff_witness :
    afsql_dd_is_transaction_handling_enabled (example_driver accepting_server 1 3 3 true) = true ∧
    afsql_dd_insert_reaches_query example_MD5 (example_driver accepting_server 1 3 3 true)
      example_msg = some ("messages", example_driver accepting_server 1 3 3 true) ∧
    statement_succeeds (example_driver accepting_server 1 3 3 true)
      (afsql_dd_build_insert_command (example_driver accepting_server 1 3 3 true) example_msg
        "messages") = true ∧
    "COMMIT" ∈ (afsql_dd_insert example_MD5 (example_driver accepting_server 1 3 3 true)
      example_msg).2.queries.drop
        ((example_driver accepting_server 1 3 3 true).queries.length + 1) :=
  ⟨by decide, rfl, by decide,
   ((afsql_dd_insert_commits_iff example_MD5 (example_driver accepting_server 1 3 3 true)
      (example_driver accepting_server 1 3 3 true) example_msg "messages"
      (by decide) rfl (by decide)).2).mpr ⟨by decide, rfl⟩⟩

/-- C2: when the schema check and the INSERT succeed and the commit watermark is not
reached (`batch_size < flush_lines`, which `batch_size + 1 < flush_lines` implies),
`afsql_dd_insert` returns QUEUED with explicit-commits and SUCCESS without; and without
explicit-commits a successful INSERT yields SUCCESS whatever the watermark. -/
theorem afsql_dd_insert_verdict_below_watermark (MD5 : String → List Nat)
    (self s : AFSqlDestDriver) (msg : LogMessage) (table : String)
    (hreach : afsql_dd_insert_reaches_query MD5 self msg = some (table, s))
    (hinsert : statement_succeeds s (afsql_dd_build_insert_command s msg table) = true) :
    (self.super.batch_size < self.flush_lines →
      (afsql_dd_insert MD5 self msg).1 =
        if afsql_dd_is_transaction_handling_enabled self = true then WORKER_INSERT_RESULT_QUEUED
        else WORKER_INSERT_RESULT_SUCCESS) ∧
    (afsql_dd_is_transaction_handling_enabled self = false →
      (afsql_dd_insert MD5 self msg).1 = WORKER_INSERT_RESULT_SUCCESS ∧
      (afsql_dd_insert MD5 self msg).1 ≠ WORKER_INSERT_RESULT_QUEUED) := by
  have hi := afsql_dd_insert_of_reaches hreach
  rw [if_pos hinsert] at hi
  constructor
  · intro hw
    have hsc : afsql_dd_should_commit_transaction self = false := by
      simp [afsql_dd_should_commit_transaction, hw]
    rw [hi]
    simp only [hsc, Bool.false_eq_true, if_false]
  · intro he
    have hsc : afsql_dd_should_commit_transaction self = false := by
      simp [afsql_dd_should_commit_transaction, he]
    rw [hi]
    simp [hsc, he]

/-- Witness of C2: without explicit-commits the verdict of a successful INSERT is
SUCCESS. -/
theorem afsql_dd_insert_verdict_below_watermark_witness :
    afsql_dd_insert_reaches_query example_MD5 (example_driver accepting_server 0 3 1 false)
      example_msg = some ("messages", example_driver accepting_server 0 3 1 false) ∧
    statement_succeeds (example_driver accepting_server 0 3 1 false)
      (afsql_dd_build_insert_command (example_driver accepting_server 0 3 1 false) example_msg
        "messages") = true ∧
    (afsql_dd_insert example_MD5 (example_driver accepting_server 0 3 1 false) example_msg).1 =
      WORKER_INSERT_RESULT_SUCCESS :=
  ⟨rfl, by decide,
   ((afsql_dd_insert_verdict_below_watermark example_MD5
      (example_driver accepting_server 0 3 1 false) (example_driver accepting_server 0 3 1 false)
      example_msg "messages" rfl (by decide)).2 (by decide)).1⟩

/-! ## A failed INSERT (C3, C5) -/

/-- C3, the code at the failing input: the connection is lost (a ping reports it dead) and
the INSERT fails; `afsql_dd_insert` returns ERROR, not NOT_CONNECTED. -/
theorem afsql_dd_insert_lost_connection_returns_error :
    (insert_rejecting_server false).ping
      ((example_driver (insert_rejecting_server false) 0 3 1 false).queries ++
        ["INSERT INTO messages (message) VALUES ('hello')"]) = false ∧
    (afsql_dd_insert example_MD5 (example_driver (insert_rejecting_server false) 0 3 1 false)
      example_msg).2.queries = ["INSERT INTO messages (message) VALUES ('hello')"] ∧
    statement_succeeds (example_driver (insert_rejecting_server false) 0 3 1 false)
      "INSERT INTO messages (message) VALUES ('hello')" = false ∧
    (afsql_dd_insert example_MD5 (example_driver (insert_rejecting_server false) 0 3 1 false)
      example_msg).1 = WORKER_INSERT_RESULT_ERROR ∧
    (afsql_dd_insert example_MD5 (example_driver (insert_rejecting_server false) 0 3 1 false)
      example_msg).1 ≠ WORKER_INSERT_RESULT_NOT_CONNECTED := by
  refine ⟨rfl, by decide, by decide, by decide, by decide⟩

/-- C5, the code at the failing input: with explicit-commits and `batch_size = 0` the call
begins a transaction, its INSERT fails and it returns ERROR; no ROLLBACK is issued and
`transaction_active` is still true when the call returns. -/
theorem afsql_dd_insert_failed_insert_leaves_transaction_active :
    (afsql_dd_insert example_MD5 (example_driver (insert_rejecting_server true) 1 3 0 false)
      example_msg).1 = WORKER_INSERT_RESULT_ERROR ∧
    (afsql_dd_insert example_MD5 (example_driver (insert_rejecting_server true) 1 3 0 false)
      example_msg).2.queries = ["BEGIN", "INSERT INTO messages (message) VALUES ('hello')"] ∧
    "ROLLBACK" ∉ (afsql_dd_insert example_MD5
      (example_driver (insert_rejecting_server true) 1 3 0 false) example_msg).2.queries ∧
    (afsql_dd_insert example_MD5 (example_driver (insert_rejecting_server true) 1 3 0 false)
      example_msg).2.transaction_active = true := by
  refine ⟨by decide, by decide, by decide, by decide⟩

/-! ## The table name of the INSERT (C10) -/

theorem afsql_dd_ensure_table_name (MD5 : String → List Nat) (self : AFSqlDestDriver)
    (table : String) (hflag : self.flags &&& AFSQL_DDF_DONT_CREATE_TABLES = 0) :
    (afsql_dd_ensure_table_is_syslogng_conform MD5 self table).2.1 =
      _sanitize_sql_identifier table := by
  unfold afsql_dd_ensure_table_is_syslogng_conform
  have h : (self.flags &&& AFSQL_DDF_DONT_CREATE_TABLES != 0) = false := by simp [hflag]
  simp only [h, Bool.false_eq_true, if_false]
  split_ifs <;> rfl

theorem getElem_append_cons_length {α : Type} (l t : List α) (a : α)
    (h : l.length < (l ++ a :: t).length) : (l ++ a :: t)[l.length] = a := by
  rw [List.getElem_append_right (Nat.le_refl _)]
  simp

theorem afsql_dd_insert_queries_of_reaches {MD5 : String → List Nat}
    {self s : AFSqlDestDriver} {msg : LogMessage} {table : String}
    (h : afsql_dd_insert_reaches_query MD5 self msg = some (table, s)) :
    (afsql_dd_insert MD5 self msg).2.queries[s.queries.length]? =
      some (afsql_dd_build_insert_command s msg table) := by
  rw [afsql_dd_insert_of_reaches h]
  have hfl := afsql_dd_flush_eq
    (afsql_dd_run_query s (afsql_dd_build_insert_command s msg table) false).2
  split_ifs
  · rw [hfl]
    split_ifs <;> simp [afsql_dd_run_query, getElem_append_cons_length]
  all_goals simp [afsql_dd_run_query]

/-- C10, counterexample: with dont-create-tables set, the table name rendered from the
message reaches the INSERT statement as it is, characters outside `[A-Za-z0-9._]`
included. -/
theorem afsql_dd_insert_table_not_sanitized_counterexample :
    (afsql_dd_insert example_MD5
      { example_driver accepting_server AFSQL_DDF_DONT_CREATE_TABLES 3 1 false with
        table := literal_template "logs; DROP TABLE users; --" } example_msg).2.queries =
      ["INSERT INTO logs; DROP TABLE users; -- (message) VALUES ('hello')"] ∧
    _is_sql_identifier_sanitized "logs; DROP TABLE users; --" = false ∧
    ¬ in_identifier_class ';' := by
  refine ⟨by decide, by decide, by decide⟩

/-- C10, amended: with dont-create-tables unset, for every message and rendered table name,
the table name with which `afsql_dd_insert` reaches its INSERT is the sanitized rendered
name, all of its characters are in `[A-Za-z0-9._]`, and the statement issued at that
point is `INSERT INTO <that name> (...) VALUES (...)`. -/
theorem afsql_dd_insert_table_sanitized (MD5 : String → List Nat) (self s : AFSqlDestDriver)
    (msg : LogMessage) (table : String)
    (hflag : self.flags &&& AFSQL_DDF_DONT_CREATE_TABLES = 0)
    (hreach : afsql_dd_insert_reaches_query MD5 self msg = some (table, s)) :
    table = _sanitize_sql_identifier (self.table.format msg 0) ∧
    (∀ c ∈ table.data, in_identifier_class c) ∧
    (afsql_dd_insert MD5 self msg).2.queries[s.queries.length]? =
      some ("INSERT INTO " ++ table ++ " (" ++ _insert_command_columns s.fields_list ++
        ") VALUES (" ++ _insert_command_values s msg s.fields_list ++ ")") := by
  have ht : table = _sanitize_sql_identifier (self.table.format msg 0) := by
    have hn := afsql_dd_ensure_table_name MD5 self (self.table.format msg 0) hflag
    unfold afsql_dd_insert_reaches_query afsql_dd_ensure_accessible_database_table at hreach
    dsimp only at hreach
    split_ifs at hreach <;>
      (simp only [Option.some.injEq, Prod.mk.injEq] at hreach
       rw [← hreach.1, hn])
  refine ⟨ht, ?_, ?_⟩
  · intro c hc
    have hs := _sanitize_sql_identifier_sanitized (self.table.format msg 0)
    rw [← ht] at hs
    exact (_sql_identifier_is_valid_char_iff c).mp (List.all_eq_true.mp hs c hc)
  · rw [afsql_dd_insert_queries_of_reaches hreach]
    rfl

/-- Witness of C10 (amended): a rendered name with a semicolon and spaces is replaced by
its sanitized form in the INSERT statement. -/
theorem afsql_dd_insert_table_sanitized_witness :
    (0 : Nat) &&& AFSQL_DDF_DONT_CREATE_TABLES = 0 ∧
    afsql_dd_insert_reaches_query example_MD5
      { example_driver accepting_server 0 3 1 false with
        table := literal_template "logs; DROP",
        syslogng_conform_tables := ["logs__DROP"] } example_msg =
      some ("logs__DROP",
        { example_driver accepting_server 0 3 1 false with
          table := literal_template "logs; DROP",
          syslogng_conform_tables := ["logs__DROP"] }) ∧
    "logs__DROP" = _sanitize_sql_identifier "logs; DROP" :=
  ⟨by decide, rfl,
   (afsql_dd_insert_table_sanitized example_MD5
      { example_driver accepting_server 0 3 1 false with
        table := literal_template "logs; DROP",
        syslogng_conform_tables := ["logs__DROP"] }
      { example_driver accepting_server 0 3 1 false with
        table := literal_template "logs; DROP",
        syslogng_conform_tables := ["logs__DROP"] }
      example_msg "logs__DROP" (by decide) rfl).1⟩

/-! ## The worker: runs and turns -/

theorem worker_run_add {σ : Type} (cb : WorkerCallbacks σ) (a b : Nat) (w : Worker σ) :
    worker_run cb (a + b) w = worker_run cb b (worker_run cb a w) := by
  induction a generalizing w with
  | zero => simp [worker_run]
  | succ a ih =>
    rw [Nat.succ_add]
    simp only [worker_run]
    exact ih _

theorem worker_run_fixed {σ : Type} (cb : WorkerCallbacks σ) (w : Worker σ)
    (h : worker_turn cb w = w) (fuel : Nat) : worker_run cb fuel w = w := by
  induction fuel with
  | zero => rfl
  | succ f ih => simp only [worker_run, h, ih]

theorem error_retry_turn_aux (sup : LogThreadedDestDriver) (t : TestThreadedDestDriver)
    (msg : LogMessage) (n k : Nat) :
    worker_turn (test_callbacks _insert_single_message_error_until_drop)
        (error_retry_state sup t msg n k) =
      if k + 1 < n then error_retry_state sup t msg n (k + 1)
      else { error_dropped_state sup t n with
             super := { (error_dropped_state sup t n).super with
                        seq_num := sup.seq_num + (k + 1 : Nat) },
             self := { t with insert_counter := t.insert_counter + (k + 1 : Nat) } } := by
  by_cases hk : k + 1 < n
  · rw [if_pos hk]
    cases k with
    | zero =>
      have h1 : (1 : Int) < (n : Int) := by omega
      simp [worker_turn, error_retry_state, test_callbacks,
        _insert_single_message_error_until_drop, worker_process_result, retry_policy,
        worker_rewind, h1]
    | succ j =>
      have h1 : (j : Int) + 2 < (n : Int) := by omega
      simp [worker_turn, error_retry_state, test_callbacks,
        _insert_single_message_error_until_drop, worker_process_result, retry_policy,
        worker_rewind, h1, add_assoc]
  · rw [if_neg hk]
    cases k with
    | zero =>
      have h1 : ¬ (1 : Int) < (n : Int) := by omega
      simp [worker_turn, error_retry_state, test_callbacks,
        _insert_single_message_error_until_drop, worker_process_result, retry_policy,
        worker_ack_unit, error_dropped_state, h1]
    | succ j =>
      have h1 : ¬ (j : Int) + 2 < (n : Int) := by omega
      simp [worker_turn, error_retry_state, test_callbacks,
        _insert_single_message_error_until_drop, worker_process_result, retry_policy,
        worker_ack_unit, error_dropped_state, h1, add_assoc]

theorem error_retry_turn (sup : LogThreadedDestDriver) (t : TestThreadedDestDriver)
    (msg : LogMessage) (n k : Nat) (hk : k < n) :
    worker_turn (test_callbacks _insert_single_message_error_until_drop)
        (error_retry_state sup t msg n k) =
      if k + 1 < n then error_retry_state sup t msg n (k + 1)
      else error_dropped_state sup t n := by
  rw [error_retry_turn_aux]
  by_cases h : k + 1 < n
  · rw [if_pos h, if_pos h]
  · rw [if_neg h, if_neg h]
    have hn : k + 1 = n := by omega
    rw [hn]
    rfl

theorem error_dropped_turn (sup : LogThreadedDestDriver) (t : TestThreadedDestDriver)
    (n : Nat) :
    worker_turn (test_callbacks _insert_single_message_error_until_drop)
        (error_dropped_state sup t n) = error_dropped_state sup t n := rfl

theorem error_retry_run (sup : LogThreadedDestDriver) (t : TestThreadedDestDriver)
    (msg : LogMessage) (n j : Nat) :
    ∀ k fuel, k + (j + 1) = n → j + 1 ≤ fuel →
      worker_run (test_callbacks _insert_single_message_error_until_drop) fuel
        (error_retry_state sup t msg n k) = error_dropped_state sup t n := by
  induction j with
  | zero =>
    intro k fuel hk hf
    obtain ⟨f, rfl⟩ : ∃ f, fuel = f + 1 := ⟨fuel - 1, by omega⟩
    simp only [worker_run]
    rw [error_retry_turn sup t msg n k (by omega), if_neg (by omega)]
    exact worker_run_fixed _ _ (error_dropped_turn sup t n) f
  | succ j ih =>
    intro k fuel hk hf
    obtain ⟨f, rfl⟩ : ∃ f, fuel = f + 1 := ⟨fuel - 1, by omega⟩
    simp only [worker_run]
    rw [error_retry_turn sup t msg n k (by omega), if_pos (by omega)]
    exact ih (k + 1) f (by omega) (by omega)

theorem error_start_turn (sup : LogThreadedDestDriver) (t : TestThreadedDestDriver)
    (msg : LogMessage) (n : Nat) :
    worker_turn (test_callbacks _insert_single_message_error_until_drop)
        (worker_start { sup with retries_max := n, retries_counter := 0, batch_size := 0 }
          t [msg]) = error_retry_state sup t msg n 0 := by
  simp [worker_turn, worker_start, test_callbacks, error_retry_state]

/-! ## Bounded retries of ERROR (C6) -/

/-- C6: for every `retries_max >= 1`, the worker given a single message and the insert
callback that always returns ERROR (`_insert_single_message_error_until_drop`) calls
insert exactly `retries_max` times and then drops the message: with enough turns
(`retries_max + 1`, one of them the connect) the insert counter has grown by
`retries_max`, `dropped_messages` by 1, `processed_messages` by 1, `written_messages` is
unchanged, `seq_num` has grown by `retries_max`, and queue and pending unit are empty. -/
theorem error_result_retries_then_drops (retries_max : Int) (hmax : 1 ≤ retries_max)
    (sup : LogThreadedDestDriver) (t : TestThreadedDestDriver) (msg : LogMessage)
    (fuel : Nat) (hfuel : retries_max.toNat + 1 ≤ fuel) :
    (worker_run (test_callbacks _insert_single_message_error_until_drop) fuel
      (worker_start { sup with retries_max := retries_max, retries_counter := 0,
                               batch_size := 0 } t [msg])).self.insert_counter =
      t.insert_counter + retries_max ∧
    (worker_run (test_callbacks _insert_single_message_error_until_drop) fuel
      (worker_start { sup with retries_max := retries_max, retries_counter := 0,
                               batch_size := 0 } t [msg])).super.dropped_messages =
      sup.dropped_messages + 1 ∧
    (worker_run (test_callbacks _insert_single_message_error_until_drop) fuel
      (worker_start { sup with retries_max := retries_max, retries_counter := 0,
                               batch_size := 0 } t [msg])).super.written_messages =
      sup.written_messages ∧
    (worker_run (test_callbacks _insert_single_message_error_until_drop) fuel
      (worker_start { sup with retries_max := retries_max, retries_counter := 0,
                               batch_size := 0 } t [msg])).super.processed_messages =
      sup.processed_messages + 1 ∧
    (worker_run (test_callbacks _insert_single_message_error_until_drop) fuel
      (worker_start { sup with retries_max := retries_max, retries_counter := 0,
                               batch_size := 0 } t [msg])).super.seq_num =
      sup.seq_num + retries_max ∧
    (worker_run (test_callbacks _insert_single_message_error_until_drop) fuel
      (worker_start { sup with retries_max := retries_max, retries_counter := 0,
                               batch_size := 0 } t [msg])).queue = [] ∧
    (worker_run (test_callbacks _insert_single_message_error_until_drop) fuel
      (worker_start { sup with retries_max := retries_max, retries_counter := 0,
                               batch_size := 0 } t [msg])).pending = [] := by
  obtain ⟨n, rfl⟩ : ∃ n : Nat, retries_max = n := ⟨retries_max.toNat, by omega⟩
  obtain ⟨f, rfl⟩ : ∃ f, fuel = f + 1 := ⟨fuel - 1, by omega⟩
  have hrun : worker_run (test_callbacks _insert_single_message_error_until_drop) (f + 1)
      (worker_start { sup with retries_max := (n : Int), retries_counter := 0,
                               batch_size := 0 } t [msg]) = error_dropped_state sup t n := by
    simp only [worker_run]
    rw [error_start_turn]
    obtain ⟨j, hj⟩ : ∃ j, n = j + 1 := ⟨n - 1, by omega⟩
    exact error_retry_run sup t msg n j 0 f (by omega) (by simp at hfuel; omega)
  rw [hrun]
  simp [error_dropped_state]

/-- Witness of C6, the test case: `retries_max = 5` gives 5 insert calls, one dropped
message and `seq_num = 1 + 5`. -/
theorem error_result_retries_then_drops_witness :
    (1 : Int) ≤ 5 ∧ (5 : Int).toNat + 1 ≤ 6 ∧
    (worker_run (test_callbacks _insert_single_message_error_until_drop) 6
      (worker_start { log_threaded_dest_driver_init_instance with
                      retries_max := 5, retries_counter := 0, batch_size := 0 }
        test_threaded_dd_new [example_msg])).self.insert_counter =
      test_threaded_dd_new.insert_counter + 5 ∧
    (worker_run (test_callbacks _insert_single_message_error_until_drop) 6
      (worker_start { log_threaded_dest_driver_init_instance with
                      retries_max := 5, retries_counter := 0, batch_size := 0 }
        test_threaded_dd_new [example_msg])).super.dropped_messages =
      log_threaded_dest_driver_init_instance.dropped_messages + 1 ∧
    (worker_run (test_callbacks _insert_single_message_error_until_drop) 6
      (worker_start { log_threaded_dest_driver_init_instance with
                      retries_max := 5, retries_counter := 0, batch_size := 0 }
        test_threaded_dd_new [example_msg])).super.seq_num = 1 + 5 :=
  ⟨by decide, by decide,
   (error_result_retries_then_drops 5 (by decide) log_threaded_dest_driver_init_instance
      test_threaded_dd_new example_msg 6 (by decide)).1,
   (error_result_retries_then_drops 5 (by decide) log_threaded_dest_driver_init_instance
      test_threaded_dd_new example_msg 6 (by decide)).2.1,
   (error_result_retries_then_drops 5 (by decide) log_threaded_dest_driver_init_instance
      test_threaded_dd_new example_msg 6 (by decide)).2.2.2.2.1⟩

theorem not_connected_connect_turn (sup : LogThreadedDestDriver) (msg : LogMessage)
    (n k : Nat) :
    worker_turn (test_callbacks (_insert_single_message_connection_failure n))
        (not_connected_state sup msg k false) = not_connected_state sup msg k true := by
  simp [worker_turn, not_connected_state, test_callbacks]

theorem not_connected_insert_turn (sup : LogThreadedDestDriver) (msg : LogMessage)
    (n k : Nat) (hk : k ≤ n) :
    worker_turn (test_callbacks (_insert_single_message_connection_failure n))
        (not_connected_state sup msg k true) =
      if k < n then not_connected_state sup msg (k + 1) false
      else not_connected_written_state sup n := by
  by_cases h : k < n
  · rw [if_pos h]
    have h1 : (k : Int) < (n : Int) := by omega
    cases k with
    | zero =>
      have h2 : (0 : Int) < (n : Int) := by omega
      simp [worker_turn, not_connected_state, test_callbacks, test_threaded_dd_new,
        _insert_single_message_connection_failure, worker_process_result, retry_policy,
        worker_rewind, h2]
    | succ j =>
      have h2 : (j : Int) + 1 < (n : Int) := by omega
      simp [worker_turn, not_connected_state, test_callbacks, test_threaded_dd_new,
        _insert_single_message_connection_failure, worker_process_result, retry_policy,
        worker_rewind, h2, add_assoc]
  · rw [if_neg h]
    have hn : k = n := by omega
    subst hn
    cases k with
    | zero =>
      simp [worker_turn, not_connected_state, test_callbacks, test_threaded_dd_new,
        _insert_single_message_connection_failure, worker_process_result, retry_policy,
        worker_ack_unit, not_connected_written_state]
    | succ j =>
      simp [worker_turn, not_connected_state, test_callbacks, test_threaded_dd_new,
        _insert_single_message_connection_failure, worker_process_result, retry_policy,
        worker_ack_unit, not_connected_written_state, add_assoc]

theorem not_connected_written_turn (sup : LogThreadedDestDriver) (n : Nat) :
    worker_turn (test_callbacks (_insert_single_message_connection_failure n))
        (not_connected_written_state sup n) = not_connected_written_state sup n := rfl

theorem not_connected_run (sup : LogThreadedDestDriver) (msg : LogMessage) (n j : Nat) :
    ∀ k fuel, k + j = n → 2 * j + 2 ≤ fuel →
      worker_run (test_callbacks (_insert_single_message_connection_failure n)) fuel
        (not_connected_state sup msg k false) = not_connected_written_state sup n := by
  induction j with
  | zero =>
    intro k fuel hk hf
    obtain ⟨f, rfl⟩ : ∃ f, fuel = f + 2 := ⟨fuel - 2, by omega⟩
    simp only [worker_run]
    rw [not_connected_connect_turn, not_connected_insert_turn sup msg n k (by omega),
      if_neg (by omega)]
    exact worker_run_fixed _ _ (not_connected_written_turn sup n) f
  | succ j ih =>
    intro k fuel hk hf
    obtain ⟨f, rfl⟩ : ∃ f, fuel = f + 2 := ⟨fuel - 2, by omega⟩
    simp only [worker_run]
    rw [not_connected_connect_turn, not_connected_insert_turn sup msg n k (by omega),
      if_pos (by omega)]
    exact ih (k + 1) f (by omega) (by omega)

theorem not_connected_start (sup : LogThreadedDestDriver) (msg : LogMessage) :
    worker_start { sup with retries_counter := 0, batch_size := 0 } test_threaded_dd_new [msg] =
      not_connected_state sup msg 0 false := by
  simp [worker_start, not_connected_state, test_threaded_dd_new]

theorem not_connected_reachable_run (sup : LogThreadedDestDriver) (msg : LogMessage)
    (n fuel : Nat) :
    ∀ w, not_connected_reachable sup msg n w →
      not_connected_reachable sup msg n
        (worker_run (test_callbacks (_insert_single_message_connection_failure n)) fuel w) := by
  induction fuel with
  | zero => intro w hw; exact hw
  | succ f ih =>
    intro w hw
    simp only [worker_run]
    apply ih
    rcases hw with rfl | ⟨k, c, hk, rfl⟩
    · left; exact not_connected_written_turn sup n
    · cases c with
      | false => right; exact ⟨k, true, hk, not_connected_connect_turn sup msg n k⟩
      | true =>
        rw [not_connected_insert_turn sup msg n k hk]
        by_cases h : k < n
        · rw [if_pos h]; right; exact ⟨k + 1, false, by omega, rfl⟩
        · rw [if_neg h]; left; rfl

/-! ## Unbounded retries of NOT_CONNECTED (C7) -/

/-- C7: for every `n` and every `retries_max`, the worker given a single message and the
insert callback that returns NOT_CONNECTED `n` times and then SUCCESS
(`_insert_single_message_connection_failure`) calls insert exactly `n + 1` times and the
message ends up written: with enough turns (`2 * n + 2`, every attempt preceded by a
connect) the insert counter is `n + 1`, `written_messages` has grown by 1 and
`processed_messages` by 1, and `seq_num` by `n + 1`; at no moment is the message counted as
dropped; and the policy maps NOT_CONNECTED to reconnect-and-retry whatever
`retries_counter` and `retries_max` are. -/
theorem not_connected_retried_until_written (n : Nat) (retries_max : Int)
    (sup : LogThreadedDestDriver) (msg : LogMessage) (fuel : Nat)
    (hfuel : 2 * n + 2 ≤ fuel) :
    (worker_run (test_callbacks (_insert_single_message_connection_failure n)) fuel
      (worker_start { sup with retries_max := retries_max, retries_counter := 0,
                               batch_size := 0 } test_threaded_dd_new [msg])).self.insert_counter =
      n + 1 ∧
    (worker_run (test_callbacks (_insert_single_message_connection_failure n)) fuel
      (worker_start { sup with retries_max := retries_max, retries_counter := 0,
                               batch_size := 0 } test_threaded_dd_new [msg])).super.written_messages =
      sup.written_messages + 1 ∧
    (worker_run (test_callbacks (_insert_single_message_connection_failure n)) fuel
      (worker_start { sup with retries_max := retries_max, retries_counter := 0,
                               batch_size := 0 } test_threaded_dd_new [msg])).super.processed_messages =
      sup.processed_messages + 1 ∧
    (worker_run (test_callbacks (_insert_single_message_connection_failure n)) fuel
      (worker_start { sup with retries_max := retries_max, retries_counter := 0,
                               batch_size := 0 } test_threaded_dd_new [msg])).super.seq_num =
      sup.seq_num + (n + 1) ∧
    (worker_run (test_callbacks (_insert_single_message_connection_failure n)) fuel
      (worker_start { sup with retries_max := retries_max, retries_counter := 0,
                               batch_size := 0 } test_threaded_dd_new [msg])).queue = [] ∧
    (∀ turns,
      (worker_run (test_callbacks (_insert_single_message_connection_failure n)) turns
        (worker_start { sup with retries_max := retries_max, retries_counter := 0,
                                 batch_size := 0 } test_threaded_dd_new [msg])).super.dropped_messages =
        sup.dropped_messages) ∧
    (∀ retries_counter retries_max : Int,
      retry_policy WORKER_INSERT_RESULT_NOT_CONNECTED retries_counter retries_max =
        some retry_action.RECONNECT_AND_RETRY) := by
  have hstart := not_connected_start { sup with retries_max := retries_max } msg
  have hrun := not_connected_run { sup with retries_max := retries_max } msg n n 0 fuel
    (by omega) hfuel
  rw [← hstart] at hrun
  refine ⟨?_, ?_, ?_, ?_, ?_, ?_, fun _ _ => rfl⟩
  · rw [hrun]; simp [not_connected_written_state, test_threaded_dd_new]
  · rw [hrun]; rfl
  · rw [hrun]; rfl
  · rw [hrun]; simp [not_connected_written_state]
  · rw [hrun]; rfl
  · intro turns
    have hr := not_connected_reachable_run { sup with retries_max := retries_max } msg n turns
      _ (Or.inr ⟨0, false, Nat.zero_le n, hstart⟩)
    rcases hr with h | ⟨k, c, _, h⟩
    · rw [h]; rfl
    · rw [h]; rfl

/-- Witness of C7, the test case: 10 NOT_CONNECTED verdicts give 11 insert calls and one
written message. -/
theorem not_connected_retried_until_written_witness :
    2 * 10 + 2 ≤ 22 ∧
    (worker_run (test_callbacks (_insert_single_message_connection_failure (10 : Nat))) 22
      (worker_start { log_threaded_dest_driver_init_instance with
                      retries_max := 5, retries_counter := 0, batch_size := 0 }
        test_threaded_dd_new [example_msg])).self.insert_counter = (10 : Nat) + 1 ∧
    (worker_run (test_callbacks (_insert_single_message_connection_failure (10 : Nat))) 22
      (worker_start { log_threaded_dest_driver_init_instance with
                      retries_max := 5, retries_counter := 0, batch_size := 0 }
        test_threaded_dd_new [example_msg])).super.written_messages =
      log_threaded_dest_driver_init_instance.written_messages + 1 :=
  ⟨by decide,
   (not_connected_retried_until_written 10 5 log_threaded_dest_driver_init_instance
      example_msg 22 (by decide)).1,
   (not_connected_retried_until_written 10 5 log_threaded_dest_driver_init_instance
      example_msg 22 (by decide)).2.1⟩

theorem worker_accounted_ack {σ : Type} (w : Worker σ) (b : Bool)
    (h : worker_accounted w) : worker_accounted (worker_ack_unit w b) := by
  obtain ⟨h1, h2⟩ := h
  cases b
  · refine ⟨?_, h2⟩
    simp only [worker_ack_unit, Bool.false_eq_true, if_false, if_true, List.length_nil]
    omega
  · refine ⟨?_, h2⟩
    simp only [worker_ack_unit, if_true, List.length_nil]
    omega

theorem worker_accounted_rewind {σ : Type} (w : Worker σ)
    (h : worker_accounted w) : worker_accounted (worker_rewind w) := by
  obtain ⟨h1, h2⟩ := h
  simp only [worker_accounted, worker_rewind, List.length_append, List.length_nil]
  constructor <;> omega

theorem worker_accounted_process_result {σ : Type} (cb : WorkerCallbacks σ)
    (v : worker_insert_result_t) (w : Worker σ) (h : worker_accounted w) :
    worker_accounted (worker_process_result cb v w) := by
  have herr : worker_accounted
      { w with super := { w.super with retries_counter := w.super.retries_counter + 1 } } := h
  unfold worker_process_result
  cases v
  · -- DROP
    simp only [reduceCtorEq, if_false, retry_policy]
    exact worker_accounted_ack _ _ h
  · -- ERROR
    simp only [if_true, retry_policy]
    split_ifs
    · exact worker_accounted_rewind _ herr
    · exact worker_accounted_ack _ _ herr
  · -- SUCCESS
    simp only [reduceCtorEq, if_false, retry_policy]
    exact worker_accounted_ack _ _ h
  · -- QUEUED
    simp only [reduceCtorEq, if_false, retry_policy]
    exact h
  · -- NOT_CONNECTED
    simp only [reduceCtorEq, if_false, retry_policy]
    exact worker_accounted_rewind _ h

theorem worker_accounted_turn {σ : Type} (cb : WorkerCallbacks σ) (w : Worker σ)
    (h : worker_accounted w) : worker_accounted (worker_turn cb w) := by
  unfold worker_turn
  by_cases hc : w.connected = true
  · simp only [hc, Bool.not_true, Bool.false_eq_true, if_false]
    obtain ⟨h1, h2⟩ := h
    cases hq : w.queue with
    | nil =>
      simp only
      by_cases hp : w.pending.isEmpty = true
      · rw [if_pos hp]; exact ⟨h1, h2⟩
      · rw [if_neg hp]
        cases cb.flush with
        | none => exact ⟨h1, h2⟩
        | some flush =>
          exact worker_accounted_process_result cb _ _ ⟨h1, by rw [hq] at h2; exact h2⟩
    | cons msg rest =>
      simp only
      apply worker_accounted_process_result
      rw [hq] at h2
      simp only [worker_accounted, List.length_append, List.length_singleton,
        List.length_cons, List.length_nil] at h2 ⊢
      constructor
      · by_cases hr : w.rewound = 0
        · rw [if_pos hr]; omega
        · rw [if_neg hr]; omega
      · omega
  · have hc' : w.connected = false := by simpa using hc
    simp only [hc', Bool.not_false, if_true]
    cases cb.connect <;> exact h

theorem worker_accounted_apply {σ : Type} (cb : WorkerCallbacks σ) (w : Worker σ)
    (e : worker_event) (h : worker_accounted w) : worker_accounted (worker_apply cb w e) := by
  cases e with
  | enqueue msg =>
    obtain ⟨h1, h2⟩ := h
    exact ⟨h1, by simp only [worker_apply, List.length_append, List.length_singleton]; omega⟩
  | turn => exact worker_accounted_turn cb w h

theorem worker_accounted_events {σ : Type} (cb : WorkerCallbacks σ)
    (events : List worker_event) :
    ∀ w : Worker σ, worker_accounted w → worker_accounted (events.foldl (worker_apply cb) w) := by
  induction events with
  | nil => intro w h; exact h
  | cons e es ih => intro w h; exact ih _ (worker_accounted_apply cb w e h)

/-! ## Counter accounting at quiescence (C8) -/

/-- C8: for every driver (callbacks and initial state), every stream of messages enqueued
at any moments and any number of worker turns in between, whenever the queue is drained
and no batch is pending, `processed_messages = written_messages + dropped_messages`:
every popped message is accounted exactly once.  The counters of the starting driver
are those of a driver at rest (`processed = written + dropped`, as in a fresh one). -/
theorem processed_eq_written_add_dropped_at_quiescence {σ : Type} (cb : WorkerCallbacks σ)
    (sup : LogThreadedDestDriver) (self : σ) (msgs : List LogMessage)
    (events : List worker_event)
    (hrest : sup.processed_messages = sup.written_messages + sup.dropped_messages)
    (hqueue : (events.foldl (worker_apply cb) (worker_start sup self msgs)).queue = [])
    (hpending : (events.foldl (worker_apply cb) (worker_start sup self msgs)).pending = []) :
    (events.foldl (worker_apply cb) (worker_start sup self msgs)).super.processed_messages =
      (events.foldl (worker_apply cb) (worker_start sup self msgs)).super.written_messages +
      (events.foldl (worker_apply cb) (worker_start sup self msgs)).super.dropped_messages := by
  have h0 : worker_accounted (worker_start sup self msgs) := by
    simp [worker_accounted, worker_start, hrest]
  obtain ⟨h1, h2⟩ := worker_accounted_events cb events _ h0
  rw [hqueue] at h2
  rw [hpending] at h1
  simp only [List.length_nil] at h1 h2
  omega

/-- Witness of C8: a fresh test driver whose insert always succeeds; one message is queued
at start, another is enqueued later, and after three more turns both are written. -/
theorem processed_eq_written_add_dropped_at_quiescence_witness :
    log_threaded_dest_driver_init_instance.processed_messages =
      log_threaded_dest_driver_init_instance.written_messages +
      log_threaded_dest_driver_init_instance.dropped_messages ∧
    ([worker_event.turn, worker_event.enqueue example_msg, worker_event.turn,
       worker_event.turn].foldl (worker_apply (test_callbacks _insert_single_message_success))
      (worker_start log_threaded_dest_driver_init_instance test_threaded_dd_new
        [example_msg])).queue = [] ∧
    ([worker_event.turn, worker_event.enqueue example_msg, worker_event.turn,
       worker_event.turn].foldl (worker_apply (test_callbacks _insert_single_message_success))
      (worker_start log_threaded_dest_driver_init_instance test_threaded_dd_new
        [example_msg])).super.processed_messages =
    ([worker_event.turn, worker_event.enqueue example_msg, worker_event.turn,
       worker_event.turn].foldl (worker_apply (test_callbacks _insert_single_message_success))
      (worker_start log_threaded_dest_driver_init_instance test_threaded_dd_new
        [example_msg])).super.written_messages +
    ([worker_event.turn, worker_event.enqueue example_msg, worker_event.turn,
       worker_event.turn].foldl (worker_apply (test_callbacks _insert_single_message_success))
      (worker_start log_threaded_dest_driver_init_instance test_threaded_dd_new
        [example_msg])).super.dropped_messages ∧
    ([worker_event.turn, worker_event.enqueue example_msg, worker_event.turn,
       worker_event.turn].foldl (worker_apply (test_callbacks _insert_single_message_success))
      (worker_start log_threaded_dest_driver_init_instance test_threaded_dd_new
        [example_msg])).super.processed_messages = 2 :=
  ⟨rfl, rfl,
   processed_eq_written_add_dropped_at_quiescence
     (test_callbacks _insert_single_message_success) log_threaded_dest_driver_init_instance
     test_threaded_dd_new [example_msg]
     [worker_event.turn, worker_event.enqueue example_msg, worker_event.turn, worker_event.turn]
     rfl rfl rfl,
   rfl⟩


/-! ## Option checks (C19, C20) -/

/-- C20: for every string `p`, `afsql_dd_check_port p` accepts `p` if and only if every
character of `p` is a decimal digit `'0'..'9'`; a string with a character that is not a
digit is rejected. -/
theorem afsql_dd_check_port_iff (p : String) :
    (afsql_dd_check_port p = true ↔ ∀ c ∈ p.data, '0' ≤ c ∧ c ≤ '9') ∧
    ((∃ c ∈ p.data, ¬ ('0' ≤ c ∧ c ≤ '9')) → afsql_dd_check_port p = false) := by
  have h : afsql_dd_check_port p = true ↔ ∀ c ∈ p.data, '0' ≤ c ∧ c ≤ '9' := by
    unfold afsql_dd_check_port
    simp only [List.all_eq_true, Bool.not_eq_true', Bool.or_eq_false_iff,
      decide_eq_false_iff_not, not_lt, gt_iff_lt]
  refine ⟨h, ?_⟩
  rintro ⟨c, hc, hn⟩
  cases hp : afsql_dd_check_port p
  · rfl
  · exact absurd (h.mp hp c hc) hn

/-- C19: `afsql_dd_lookup_flag` returns the explicit-commits flag for `explicit-commits` and
`explicit_commits`, the dont-create-tables flag for `dont-create-tables` and
`dont_create_tables`; the two flags are distinct and non-zero; and every other string
gives 0. -/
theorem afsql_dd_lookup_flag_spec :
    afsql_dd_lookup_flag "explicit-commits" = AFSQL_DDF_EXPLICIT_COMMITS ∧
    afsql_dd_lookup_flag "explicit_commits" = AFSQL_DDF_EXPLICIT_COMMITS ∧
    afsql_dd_lookup_flag "dont-create-tables" = AFSQL_DDF_DONT_CREATE_TABLES ∧
    afsql_dd_lookup_flag "dont_create_tables" = AFSQL_DDF_DONT_CREATE_TABLES ∧
    AFSQL_DDF_EXPLICIT_COMMITS ≠ AFSQL_DDF_DONT_CREATE_TABLES ∧
    AFSQL_DDF_EXPLICIT_COMMITS ≠ 0 ∧
    AFSQL_DDF_DONT_CREATE_TABLES ≠ 0 ∧
    (∀ flag : String,
      flag ≠ "explicit-commits" → flag ≠ "explicit_commits" →
      flag ≠ "dont-create-tables" → flag ≠ "dont_create_tables" →
      afsql_dd_lookup_flag flag = 0) := by
  refine ⟨by decide, by decide, by decide, by decide, by decide, by decide, by decide, ?_⟩
  intro flag h1 h2 h3 h4
  simp [afsql_dd_lookup_flag, h1, h2, h3, h4]

/-! ## Stats instance and persist name (C17, C18) -/

theorem g_snprintf_of_fits (n : Nat) (s : String) (h : s.length ≤ n - 1) :
    g_snprintf n s = s := by
  unfold g_snprintf
  have : s.data.take (n - 1) = s.data := List.take_of_length_le h
  rw [this]

theorem g_snprintf_length (n : Nat) (s : String) : (g_snprintf n s).length ≤ n - 1 := by
  show (s.data.take (n - 1)).length ≤ n - 1
  simp

/-- C18, counterexample: with a host name of 70 characters the stats instance name is 63
characters long and is not the string `<type>,<host>,<port>,<database>,<table_template>`,
which has 91. -/
theorem afsql_dd_format_stats_instance_counterexample :
    (afsql_dd_format_stats_instance
      (named_driver (String.mk (List.replicate 70 'h')) "logs" "messages")).length = 63 ∧
    (stats_instance_text
      (named_driver (String.mk (List.replicate 70 'h')) "logs" "messages")).length = 91 ∧
    afsql_dd_format_stats_instance
      (named_driver (String.mk (List.replicate 70 'h')) "logs" "messages") ≠
      "mysql," ++ String.mk (List.replicate 70 'h') ++ ",,logs,messages" := by
  refine ⟨by decide, by decide, by decide⟩

/-- C18, amended: for every configuration the stats instance name is the first 63 characters
of `<type>,<host>,<port>,<database>,<table_template>`; it is exactly that string, all five
components in full, when the string has at most 63 characters. -/
theorem afsql_dd_format_stats_instance_spec (self : AFSqlDestDriver) :
    afsql_dd_format_stats_instance self =
      String.mk ((self.type ++ "," ++ self.host ++ "," ++ self.port ++ "," ++ self.database ++
        "," ++ self.table.template).data.take 63) ∧
    ((self.type ++ "," ++ self.host ++ "," ++ self.port ++ "," ++ self.database ++
        "," ++ self.table.template).length ≤ 63 →
      afsql_dd_format_stats_instance self =
        self.type ++ "," ++ self.host ++ "," ++ self.port ++ "," ++ self.database ++
          "," ++ self.table.template) :=
  ⟨rfl, fun h => g_snprintf_of_fits 64 _ h⟩

theorem append_comma_cancel :
    ∀ (a b x y : List Char), ',' ∉ a → ',' ∉ b → a ++ ',' :: x = b ++ ',' :: y →
      a = b ∧ x = y := by
  intro a
  induction a with
  | nil =>
    intro b x y _ hb h
    cases b with
    | nil => simpa using h
    | cons c b =>
      simp only [List.nil_append, List.cons_append, List.cons.injEq] at h
      exact absurd (h.1 ▸ List.mem_cons_self _ _) hb
  | cons c a ih =>
    intro b x y ha hb h
    cases b with
    | nil =>
      simp only [List.nil_append, List.cons_append, List.cons.injEq] at h
      exact absurd (h.1 ▸ List.mem_cons_self _ _) ha
    | cons d b =>
      simp only [List.cons_append, List.cons.injEq] at h
      have ha' : ',' ∉ a := fun hm => ha (List.mem_cons_of_mem _ hm)
      have hb' : ',' ∉ b := fun hm => hb (List.mem_cons_of_mem _ hm)
      obtain ⟨h1, h2⟩ := ih b x y ha' hb' h.2
      exact ⟨by rw [h.1, h1], h2⟩

theorem persist_name_text_injective (s1 s2 : AFSqlDestDriver)
    (h1 : s1.super.persist_name = none) (h2 : s2.super.persist_name = none)
    (c1 : ',' ∉ s1.type.data ∧ ',' ∉ s1.host.data ∧ ',' ∉ s1.port.data ∧ ',' ∉ s1.database.data)
    (c2 : ',' ∉ s2.type.data ∧ ',' ∉ s2.host.data ∧ ',' ∉ s2.port.data ∧ ',' ∉ s2.database.data)
    (h : persist_name_text s1 = persist_name_text s2) :
    s1.type = s2.type ∧ s1.host = s2.host ∧ s1.port = s2.port ∧ s1.database = s2.database ∧
      s1.table.template = s2.table.template := by
  unfold persist_name_text at h
  rw [h1, h2] at h
  have hd := congrArg String.data h
  simp only [String.data_append] at hd
  have hp : ("afsql_dd(" : String).data = ['a', 'f', 's', 'q', 'l', '_', 'd', 'd', '('] := rfl
  have hc : ("," : String).data = [','] := rfl
  have hr : (")" : String).data = [')'] := rfl
  simp only [hp, hc, hr, List.append_assoc, List.cons_append, List.nil_append,
    List.cons.injEq, true_and] at hd
  obtain ⟨e1, hd⟩ := append_comma_cancel _ _ _ _ c1.1 c2.1 hd
  obtain ⟨e2, hd⟩ := append_comma_cancel _ _ _ _ c1.2.1 c2.2.1 hd
  obtain ⟨e3, hd⟩ := append_comma_cancel _ _ _ _ c1.2.2.1 c2.2.2.1 hd
  obtain ⟨e4, hd⟩ := append_comma_cancel _ _ _ _ c1.2.2.2 c2.2.2.2 hd
  have e5 : s1.table.template.data = s2.table.template.data := List.append_cancel_right hd
  exact ⟨String.ext e1, String.ext e2, String.ext e3, String.ext e4, String.ext e5⟩

/-- C17, counterexample: two configurations that differ in the table template but have a
database name of 300 characters get the same persist name, 255 characters long; and two
configurations with different database and table template get the same persist name
because the database of one contains a comma. -/
theorem afsql_dd_format_persist_name_counterexample :
    (afsql_dd_format_persist_name
      (named_driver "h" (String.mk (List.replicate 300 'd')) "messages")).length = 255 ∧
    afsql_dd_format_persist_name
        (named_driver "h" (String.mk (List.replicate 300 'd')) "messages") =
      afsql_dd_format_persist_name
        (named_driver "h" (String.mk (List.replicate 300 'd')) "other") ∧
    afsql_dd_format_persist_name (named_driver "h" "d,x" "t") = "afsql_dd(mysql,h,,d,x,t)" ∧
    afsql_dd_format_persist_name (named_driver "h" "d" "x,t") = "afsql_dd(mysql,h,,d,x,t)" := by
  set_option maxRecDepth 100000 in
  refine ⟨by decide, by decide, by decide, by decide⟩

/-- C17, amended: for every configuration the persist name is the first 255 characters of
`afsql_dd(<type>,<host>,<port>,<database>,<table_template>)` when no user persist name is
set and of `afsql_dd.<user_name>` otherwise; it is exactly that text, every component in
full, when the text has at most 255 characters; and two configurations without user
persist name whose texts fit and whose type, host, port and database contain no comma get
different persist names as soon as they differ in a component. -/
theorem afsql_dd_format_persist_name_spec (self : AFSqlDestDriver) :
    (self.super.persist_name = none →
      afsql_dd_format_persist_name self =
        String.mk (("afsql_dd(" ++ self.type ++ "," ++ self.host ++ "," ++ self.port ++ "," ++
          self.database ++ "," ++ self.table.template ++ ")").data.take 255)) ∧
    (∀ user_name, self.super.persist_name = some user_name →
      afsql_dd_format_persist_name self =
        String.mk (("afsql_dd." ++ user_name).data.take 255)) ∧
    (self.super.persist_name = none →
      ("afsql_dd(" ++ self.type ++ "," ++ self.host ++ "," ++ self.port ++ "," ++
          self.database ++ "," ++ self.table.template ++ ")").length ≤ 255 →
      afsql_dd_format_persist_name self =
        "afsql_dd(" ++ self.type ++ "," ++ self.host ++ "," ++ self.port ++ "," ++
          self.database ++ "," ++ self.table.template ++ ")") ∧
    (∀ user_name, self.super.persist_name = some user_name →
      ("afsql_dd." ++ user_name).length ≤ 255 →
      afsql_dd_format_persist_name self = "afsql_dd." ++ user_name) ∧
    (∀ other : AFSqlDestDriver,
      self.super.persist_name = none → other.super.persist_name = none →
      (persist_name_text self).length ≤ 255 → (persist_name_text other).length ≤ 255 →
      (',' ∉ self.type.data ∧ ',' ∉ self.host.data ∧ ',' ∉ self.port.data ∧
        ',' ∉ self.database.data) →
      (',' ∉ other.type.data ∧ ',' ∉ other.host.data ∧ ',' ∉ other.port.data ∧
        ',' ∉ other.database.data) →
      (self.type ≠ other.type ∨ self.host ≠ other.host ∨ self.port ≠ other.port ∨
        self.database ≠ other.database ∨ self.table.template ≠ other.table.template) →
      afsql_dd_format_persist_name self ≠ afsql_dd_format_persist_name other) := by
  have hfmt : ∀ s : AFSqlDestDriver,
      afsql_dd_format_persist_name s = g_snprintf 256 (persist_name_text s) := by
    intro s
    unfold afsql_dd_format_persist_name persist_name_text
    cases s.super.persist_name <;> rfl
  refine ⟨?_, ?_, ?_, ?_, ?_⟩
  · intro h
    rw [hfmt]; unfold persist_name_text; rw [h]; rfl
  · intro u h
    rw [hfmt]; unfold persist_name_text; rw [h]; rfl
  · intro h hl
    rw [hfmt]; unfold persist_name_text; rw [h]
    exact g_snprintf_of_fits 256 _ hl
  · intro u h hl
    rw [hfmt]; unfold persist_name_text; rw [h]
    exact g_snprintf_of_fits 256 _ hl
  · intro other h1 h2 l1 l2 c1 c2 hne heq
    rw [hfmt, hfmt, g_snprintf_of_fits 256 _ l1, g_snprintf_of_fits 256 _ l2] at heq
    obtain ⟨e1, e2, e3, e4, e5⟩ := persist_name_text_injective self other h1 h2 c1 c2 heq
    rcases hne with h | h | h | h | h
    · exact h e1
    · exact h e2
    · exact h e3
    · exact h e4
    · exact h e5

/-! ## Confirmed tables (C11) -/

theorem _is_table_syslogng_conform_remember (self : AFSqlDestDriver) (table : String) :
    _is_table_syslogng_conform (_remember_table_as_syslogng_conform self table) table = true := by
  simp [_is_table_syslogng_conform, _remember_table_as_syslogng_conform]

theorem afsql_dd_ensure_table_of_conform (MD5 : String → List Nat) (self : AFSqlDestDriver)
    (table : String)
    (h : _is_table_syslogng_conform self (_sanitize_sql_identifier table) = true) :
    (afsql_dd_ensure_table_is_syslogng_conform MD5 self table).1 = true ∧
    (afsql_dd_ensure_table_is_syslogng_conform MD5 self table).2.2 = self := by
  unfold afsql_dd_ensure_table_is_syslogng_conform
  dsimp only
  split_ifs <;> exact ⟨rfl, rfl⟩

theorem afsql_dd_ensure_table_conform_after (MD5 : String → List Nat) (self : AFSqlDestDriver)
    (table : String) (hflag : self.flags &&& AFSQL_DDF_DONT_CREATE_TABLES = 0)
    (h : (afsql_dd_ensure_table_is_syslogng_conform MD5 self table).1 = true) :
    _is_table_syslogng_conform (afsql_dd_ensure_table_is_syslogng_conform MD5 self table).2.2
      (_sanitize_sql_identifier table) = true := by
  have hf : (self.flags &&& AFSQL_DDF_DONT_CREATE_TABLES != 0) = false := by simp [hflag]
  have tail : ∀ r : Bool × AFSqlDestDriver,
      (if r.1 = true then
          (true, _sanitize_sql_identifier table,
            _remember_table_as_syslogng_conform r.2 (_sanitize_sql_identifier table))
        else (false, _sanitize_sql_identifier table, r.2)).1 = true →
      _is_table_syslogng_conform
        (if r.1 = true then
          (true, _sanitize_sql_identifier table,
            _remember_table_as_syslogng_conform r.2 (_sanitize_sql_identifier table))
        else (false, _sanitize_sql_identifier table, r.2)).2.2
        (_sanitize_sql_identifier table) = true := by
    intro r hr
    by_cases h1 : r.1 = true
    · rw [if_pos h1]
      exact _is_table_syslogng_conform_remember _ _
    · rw [if_neg h1] at hr
      exact absurd hr (by simp)
  unfold afsql_dd_ensure_table_is_syslogng_conform at h ⊢
  simp only [hf, Bool.false_eq_true, if_false] at h ⊢
  by_cases hc : _is_table_syslogng_conform self (_sanitize_sql_identifier table) = true
  · simp only [hc, if_true]
  · simp only [hc, if_false] at h ⊢
    exact tail _ h

/-- C11: if the sanitized table name is already confirmed,
`afsql_dd_ensure_table_is_syslogng_conform` returns success and leaves the driver exactly
as it was: no statement issued, transaction state and confirmed tables unchanged.
Whenever it returns success with dont-create-tables unset, the sanitized name is
confirmed afterwards, so a second call for the same name (rendered or sanitized)
succeeds and changes nothing, issuing no statement. -/
theorem afsql_dd_ensure_table_confirmed_frame (MD5 : String → List Nat)
    (self : AFSqlDestDriver) (table : String) :
    (_is_table_syslogng_conform self (_sanitize_sql_identifier table) = true →
      (afsql_dd_ensure_table_is_syslogng_conform MD5 self table).1 = true ∧
      (afsql_dd_ensure_table_is_syslogng_conform MD5 self table).2.2 = self ∧
      (afsql_dd_ensure_table_is_syslogng_conform MD5 self table).2.2.queries = self.queries ∧
      (afsql_dd_ensure_table_is_syslogng_conform MD5 self table).2.2.transaction_active =
        self.transaction_active ∧
      (afsql_dd_ensure_table_is_syslogng_conform MD5 self table).2.2.syslogng_conform_tables =
        self.syslogng_conform_tables) ∧
    (self.flags &&& AFSQL_DDF_DONT_CREATE_TABLES = 0 →
      (afsql_dd_ensure_table_is_syslogng_conform MD5 self table).1 = true →
      _is_table_syslogng_conform (afsql_dd_ensure_table_is_syslogng_conform MD5 self table).2.2
        (_sanitize_sql_identifier table) = true ∧
      (∀ again, again = table ∨ again = _sanitize_sql_identifier table →
        (afsql_dd_ensure_table_is_syslogng_conform MD5
          (afsql_dd_ensure_table_is_syslogng_conform MD5 self table).2.2 again).1 = true ∧
        (afsql_dd_ensure_table_is_syslogng_conform MD5
          (afsql_dd_ensure_table_is_syslogng_conform MD5 self table).2.2 again).2.2.queries =
          (afsql_dd_ensure_table_is_syslogng_conform MD5 self table).2.2.queries ∧
        (afsql_dd_ensure_table_is_syslogng_conform MD5
          (afsql_dd_ensure_table_is_syslogng_conform MD5 self table).2.2 again).2.2 =
          (afsql_dd_ensure_table_is_syslogng_conform MD5 self table).2.2)) := by
  constructor
  · intro h
    obtain ⟨h1, h2⟩ := afsql_dd_ensure_table_of_conform MD5 self table h
    exact ⟨h1, h2, by rw [h2], by rw [h2], by rw [h2]⟩
  · intro hflag hs
    have hc := afsql_dd_ensure_table_conform_after MD5 self table hflag hs
    refine ⟨hc, ?_⟩
    intro again ha
    have hc' : _is_table_syslogng_conform
        (afsql_dd_ensure_table_is_syslogng_conform MD5 self table).2.2
        (_sanitize_sql_identifier again) = true := by
      rcases ha with rfl | rfl
      · exact hc
      · rw [_sanitize_sql_identifier_of_sanitized _ (_sanitize_sql_identifier_sanitized table)]
        exact hc
    obtain ⟨h1, h2⟩ := afsql_dd_ensure_table_of_conform MD5 _ again hc'
    exact ⟨h1, by rw [h2], h2⟩

/-! ## Index names (C12) -/

theorem hex_byte_length (b : Nat) : (hex_byte b).length = 2 := rfl

theorem flatMap_hex_byte_length (d : List Nat) : (d.flatMap hex_byte).length = 2 * d.length := by
  induction d with
  | nil => rfl
  | cons b d ih =>
    simp only [List.flatMap_cons, List.length_append, hex_byte_length, ih, List.length_cons]
    omega

theorem flatMap_hex_byte_take (n : Nat) :
    ∀ d : List Nat, (d.take n).flatMap hex_byte = (d.flatMap hex_byte).take (2 * n) := by
  induction n with
  | zero => intro d; simp
  | succ n ih =>
    intro d
    cases d with
    | nil => simp
    | cons b d =>
      have h2 : 2 * (n + 1) = 2 * n + 2 := by omega
      simp only [List.take_succ_cons, List.flatMap_cons, ih d, h2]
      rw [List.take_append_eq_append_take]
      simp [hex_byte_length, List.take_of_length_le]

theorem afsql_dd_create_index_query_eq (MD5 : String → List Nat) (self : AFSqlDestDriver)
    (table column : String) :
    afsql_dd_create_index_query MD5 self table column =
      "CREATE INDEX " ++ index_name_spec MD5 self.type table column ++ " ON " ++ table ++
        " (" ++ column ++ ")" := by
  have hfmt : ∀ d : List Nat,
      format_hex_string d 31 = String.mk ((d.flatMap hex_byte).take 30) := by
    intro d
    unfold format_hex_string
    rw [show (31 - 1) / 2 = 15 from rfl, flatMap_hex_byte_take 15]
  unfold afsql_dd_create_index_query index_name_spec
  by_cases ho : self.type = "oracle"
  · have h1 : (self.type == s_oracle) = true := by simp [ho, s_oracle]
    by_cases hl : table.length + column.length > 25
    · rw [if_pos h1, if_pos hl, if_pos ⟨ho, hl⟩]
      dsimp only
      rw [hfmt, List.drop_one]
    · rw [if_pos h1, if_neg hl, if_neg (fun h => hl h.2)]
      simp [String.append_assoc]
  · have h1 : ¬ (self.type == s_oracle) = true := by simp [ho, s_oracle]
    rw [if_neg h1, if_neg (fun h => ho h.1)]
    simp [String.append_assoc]

/-- C12: for every table and column, the statement built (and issued) by
`afsql_dd_create_index` is `CREATE INDEX <name> ON <table> (<column>)` where the name is
`<table>_<column>_idx`, except for type `oracle` with `len(table) + len(column) > 25`, where
it is the first 30 hexadecimal digits of the MD5 digest of `<table>_<column>` with the
first character replaced by `i`, exactly 30 characters long for a digest of 16 bytes.
Hence for `oracle` the index name never exceeds 30 characters. -/
theorem afsql_dd_create_index_name (MD5 : String → List Nat) (self : AFSqlDestDriver)
    (table column : String) (hMD5 : ∀ s, (MD5 s).length = 16) :
    (afsql_dd_create_index MD5 self table column).2.queries =
      self.queries ++ ["CREATE INDEX " ++ index_name_spec MD5 self.type table column ++
        " ON " ++ table ++ " (" ++ column ++ ")"] ∧
    (¬ (self.type = "oracle" ∧ table.length + column.length > 25) →
      index_name_spec MD5 self.type table column = table ++ "_" ++ column ++ "_idx") ∧
    (self.type = "oracle" → table.length + column.length > 25 →
      index_name_spec MD5 self.type table column =
        String.mk ('i' :: (((MD5 (table ++ "_" ++ column)).flatMap hex_byte).take 30).drop 1) ∧
      (index_name_spec MD5 self.type table column).length = 30) ∧
    (self.type = "oracle" → (index_name_spec MD5 self.type table column).length ≤ 30) := by
  have hlong : self.type = "oracle" → table.length + column.length > 25 →
      index_name_spec MD5 self.type table column =
        String.mk ('i' :: (((MD5 (table ++ "_" ++ column)).flatMap hex_byte).take 30).drop 1) ∧
      (index_name_spec MD5 self.type table column).length = 30 := by
    intro ho hl
    have he : index_name_spec MD5 self.type table column =
        String.mk ('i' :: (((MD5 (table ++ "_" ++ column)).flatMap hex_byte).take 30).drop 1) := by
      unfold index_name_spec
      rw [if_pos ⟨ho, hl⟩]
    refine ⟨he, ?_⟩
    rw [he]
    show ('i' :: (((MD5 (table ++ "_" ++ column)).flatMap hex_byte).take 30).drop 1).length = 30
    simp only [List.length_cons, List.length_drop, List.length_take, flatMap_hex_byte_length,
      hMD5]
    rfl
  have hshort : ¬ (self.type = "oracle" ∧ table.length + column.length > 25) →
      index_name_spec MD5 self.type table column = table ++ "_" ++ column ++ "_idx" := by
    intro hn
    unfold index_name_spec
    rw [if_neg hn]
  refine ⟨?_, hshort, hlong, ?_⟩
  · show self.queries ++ [afsql_dd_create_index_query MD5 self table column] = _
    rw [afsql_dd_create_index_query_eq]
  · intro ho
    by_cases hl : table.length + column.length > 25
    · exact le_of_eq (hlong ho hl).2
    · rw [hshort (fun h => hl h.2)]
      simp only [String.length_append]
      have h1 : ("_" : String).length = 1 := rfl
      have h2 : ("_idx" : String).length = 4 := rfl
      omega

/-- Witness of C12: an Oracle table and column of 29 and 4 characters. -/
theorem afsql_dd_create_index_name_witness :
    (∀ s, (example_MD5 s).length = 16) ∧
    (afsql_dd_create_index example_MD5
      { example_driver accepting_server 0 3 0 false with type := "oracle" }
      "a_very_long_table_name_indeed" "host").2.queries =
      ["CREATE INDEX " ++ index_name_spec example_MD5 "oracle"
        "a_very_long_table_name_indeed" "host" ++
        " ON " ++ "a_very_long_table_name_indeed" ++ " (" ++ "host" ++ ")"] ∧
    index_name_spec example_MD5 "oracle" "a_very_long_table_name_indeed" "host" =
      "i00000000000000000000000000000" :=
  ⟨fun _ => rfl,
   (afsql_dd_create_index_name example_MD5
      { example_driver accepting_server 0 3 0 false with type := "oracle" }
      "a_very_long_table_name_indeed" "host" (fun _ => rfl)).1,
   by decide⟩


/-! ## Column entries and fields of `afsql_dd_init` -/

theorem dropWhile_eq_nil_of_not_mem (l : List Char) (h : ' ' ∉ l) :
    l.dropWhile (fun c => c != ' ') = [] := by
  rw [List.dropWhile_eq_nil_iff]
  intro c hc
  have : c ≠ ' ' := fun e => h (e ▸ hc)
  simpa using this

theorem not_mem_of_dropWhile_eq_nil (l : List Char)
    (h : l.dropWhile (fun c => c != ' ') = []) : ' ' ∉ l := by
  rw [List.dropWhile_eq_nil_iff] at h
  intro hm
  have := h ' ' hm
  simp at this

theorem not_mem_takeWhile_ne (l : List Char) : ' ' ∉ l.takeWhile (fun c => c != ' ') := by
  intro hm
  have := List.mem_takeWhile_imp hm
  simp at this

theorem takeWhile_eq_replicate (l : List Char) :
    l.takeWhile (fun c => c == ' ') =
      List.replicate (l.takeWhile (fun c => c == ' ')).length ' ' := by
  apply List.eq_replicate_of_mem
  intro c hc
  have := List.mem_takeWhile_imp hc
  simpa using this

theorem head?_dropWhile_eq (l : List Char) :
    (l.dropWhile (fun c => c == ' ')).head? ≠ some ' ' := by
  intro h
  have := List.head?_dropWhile_not (fun c => c == ' ') l
  rw [h] at this
  simp at this

theorem afsql_dd_init_column_spec (col : String) :
    column_entry_spec col (afsql_dd_init_column col).1 (afsql_dd_init_column col).2 := by
  unfold afsql_dd_init_column column_entry_spec
  cases hd : col.data.dropWhile (fun c => c != ' ') with
  | nil =>
    left
    exact ⟨not_mem_of_dropWhile_eq_nil _ hd, rfl, rfl⟩
  | cons c space =>
    right
    have hc : c = ' ' := by
      have := List.head?_dropWhile_not (fun c => c != ' ') col.data
      rw [hd] at this
      simpa using this
    subst hc
    have hsplit : col.data = col.data.takeWhile (fun c => c != ' ') ++ ' ' :: space := by
      rw [← hd, List.takeWhile_append_dropWhile]
    have hrun : ' ' :: space =
        List.replicate ((space.takeWhile (fun c => c == ' ')).length + 1) ' ' ++
          space.dropWhile (fun c => c == ' ') := by
      rw [List.replicate_succ, List.cons_append, ← takeWhile_eq_replicate,
        List.takeWhile_append_dropWhile]
    have hdrop : (' ' :: space).dropWhile (fun c => c == ' ') =
        space.dropWhile (fun c => c == ' ') := by
      simp [List.dropWhile_cons]
    refine ⟨(space.takeWhile (fun c => c == ' ')).length,
      space.dropWhile (fun c => c == ' '), ?_, not_mem_takeWhile_ne _, head?_dropWhile_eq _, ?_⟩
    · dsimp only
      rw [List.append_assoc, ← hrun]
      exact hsplit
    · dsimp only
      rw [hdrop]
      cases space.dropWhile (fun c => c == ' ') <;> simp

theorem afsql_dd_init_column_name (col : String) :
    (afsql_dd_init_column col).1.data = col.data.takeWhile (fun c => c != ' ') := by
  unfold afsql_dd_init_column
  cases hd : col.data.dropWhile (fun c => c != ' ') with
  | nil =>
    dsimp only
    have h := List.takeWhile_append_dropWhile (fun c => c != ' ') col.data
    rw [hd, List.append_nil] at h
    exact h.symm
  | cons c space => rfl

theorem afsql_dd_init_fields_nil_left (compile : String → LogTemplate)
    (values : List afsql_value) : afsql_dd_init_fields compile [] values = some (true, []) := by
  unfold afsql_dd_init_fields
  rfl

theorem afsql_dd_init_fields_nil_right (compile : String → LogTemplate)
    (cols : List String) : afsql_dd_init_fields compile cols [] = some (true, []) := by
  cases cols <;> (unfold afsql_dd_init_fields; rfl)

theorem afsql_dd_init_fields_success (compile : String → LogTemplate) :
    ∀ (cols : List String) (values : List afsql_value) (fs : List AFSqlField),
      afsql_dd_init_fields compile cols values = some (true, fs) →
      List.Forall₂ (fun cv f => field_comes_from compile cv.1 cv.2 f ∧
        _is_sql_identifier_sanitized f.name = true) (cols.zip values) fs := by
  intro cols
  induction cols with
  | nil =>
    intro values fs h
    rw [afsql_dd_init_fields_nil_left] at h
    simp only [Option.some.injEq, Prod.mk.injEq, true_and] at h
    subst h
    simp
  | cons col cols ih =>
    intro values fs h
    cases values with
    | nil =>
      rw [afsql_dd_init_fields_nil_right] at h
      simp only [Option.some.injEq, Prod.mk.injEq, true_and] at h
      subst h
      simp
    | cons value values =>
      unfold afsql_dd_init_fields at h
      dsimp only at h
      by_cases hs : _is_sql_identifier_sanitized (afsql_dd_init_column col).1 = true
      · simp only [hs, Bool.not_true, Bool.false_eq_true, if_false] at h
        cases value with
        | template text =>
          dsimp only at h
          cases hr : afsql_dd_init_fields compile cols values with
          | none => simp [hr] at h
          | some r =>
            simp only [hr, Option.some.injEq, Prod.mk.injEq] at h
            obtain ⟨h1, h2⟩ := h
            subst h2
            have hrec := ih values r.2 (by rw [hr, ← h1])
            refine List.Forall₂.cons ⟨⟨afsql_dd_init_column_spec col, ?_⟩, hs⟩ hrec
            exact Or.inl ⟨text, rfl, rfl, rfl⟩
        | sentinel n =>
          dsimp only at h
          by_cases hn : n = AFSQL_COLUMN_DEFAULT
          · simp only [hn, if_true] at h
            cases hr : afsql_dd_init_fields compile cols values with
            | none => simp [hr] at h
            | some r =>
              simp only [hr, Option.some.injEq, Prod.mk.injEq] at h
              obtain ⟨h1, h2⟩ := h
              subst h2
              have hrec := ih values r.2 (by rw [hr, ← h1])
              refine List.Forall₂.cons ⟨⟨afsql_dd_init_column_spec col, ?_⟩, hs⟩ hrec
              exact Or.inr ⟨by rw [hn], rfl, rfl⟩
          · simp [hn] at h
      · simp [hs] at h

theorem afsql_dd_init_fields_refuses (compile : String → LogTemplate) :
    ∀ (cols : List String) (values : List afsql_value),
      values_well_formed values → cols.length ≤ values.length →
      (∃ col ∈ cols, _is_sql_identifier_sanitized (afsql_dd_init_column col).1 = false) →
      ∃ fs, afsql_dd_init_fields compile cols values = some (false, fs) := by
  intro cols
  induction cols with
  | nil => intro values _ _ h; simp at h
  | cons col cols ih =>
    intro values hwf hlen hbad
    cases values with
    | nil => simp at hlen
    | cons value values =>
      have hwf' : values_well_formed values := fun v hv => hwf v (List.mem_cons_of_mem _ hv)
      have hlen' : cols.length ≤ values.length := by simpa using hlen
      unfold afsql_dd_init_fields
      dsimp only
      by_cases hs : _is_sql_identifier_sanitized (afsql_dd_init_column col).1 = true
      · have hbad' : ∃ c ∈ cols,
            _is_sql_identifier_sanitized (afsql_dd_init_column c).1 = false := by
          obtain ⟨c, hc, hcb⟩ := hbad
          rcases List.mem_cons.mp hc with rfl | hc'
          · rw [hs] at hcb; simp at hcb
          · exact ⟨c, hc', hcb⟩
        obtain ⟨fs, hfs⟩ := ih values hwf' hlen' hbad'
        simp only [hs, Bool.not_true, Bool.false_eq_true, if_false]
        rcases hwf value (List.mem_cons_self _ _) with ⟨text, rfl⟩ | rfl
        · exact ⟨_, by simp only [hfs]; rfl⟩
        · exact ⟨_, by simp only [hfs, if_true]; rfl⟩
      · have hs' : _is_sql_identifier_sanitized (afsql_dd_init_column col).1 = false := by
          simpa using hs
        exact ⟨_, by simp only [hs', Bool.not_false, if_true]; rfl⟩

theorem afsql_dd_init_first (env : afsql_init_env) (g : Bool) (self : AFSqlDestDriver)
    (hfields : self.fields = none) (hbase : env.log_threaded_dest_driver_init_method = true)
    (hcols : (self.columns.getD []).isEmpty = false)
    (hvals : (self.values.getD []).isEmpty = false)
    (hlen : (self.columns.getD []).length = (self.values.getD []).length) :
    afsql_dd_init env g self =
      match afsql_dd_init_fields env.log_template_compile (self.columns.getD [])
          (self.values.getD []) with
      | none => none
      | some (false, fs) =>
        some (false, { self with fields := some (fs ++
          List.replicate ((self.columns.getD []).length - fs.length) AFSqlField.zero) }, g)
      | some (true, fs) =>
        if g = false ∧ env.dbi_initialize_r ≤ 0 then
          some (false,
            { self with
              fields := some (fs ++
                List.replicate ((self.columns.getD []).length - fs.length) AFSqlField.zero),
              flush_lines := if self.flush_lines = -1 then env.cfg_flush_lines
                else self.flush_lines }, g)
        else
          some (true,
            { self with
              fields := some (fs ++
                List.replicate ((self.columns.getD []).length - fs.length) AFSqlField.zero),
              flush_lines := if self.flush_lines = -1 then env.cfg_flush_lines
                else self.flush_lines }, true) := by
  unfold afsql_dd_init
  simp only [hbase, Bool.not_true, Bool.false_eq_true, if_false, hcols, hvals, Bool.or_self,
    hfields, hlen, bne_self_eq_false]
  cases hr : afsql_dd_init_fields env.log_template_compile (self.columns.getD [])
      (self.values.getD []) with
  | none => rfl
  | some r =>
    obtain ⟨ok, fs⟩ := r
    cases ok with
    | false => rfl
    | true =>
      dsimp only
      cases g with
      | true =>
        by_cases hf : self.flush_lines = -1
        · simp [hf]
        · simp [hf]
      | false =>
        by_cases h1 : env.dbi_initialize_r < 0
        · have hc : false = false ∧ env.dbi_initialize_r ≤ 0 := ⟨rfl, by omega⟩
          rw [if_pos hc]
          by_cases hf : self.flush_lines = -1 <;> simp [hf, h1]
        · by_cases h2 : env.dbi_initialize_r = 0
          · have hc : false = false ∧ env.dbi_initialize_r ≤ 0 := ⟨rfl, by omega⟩
            rw [if_pos hc]
            by_cases hf : self.flush_lines = -1 <;> simp [hf, h2]
          · have hc : ¬ (false = false ∧ env.dbi_initialize_r ≤ 0) := fun h => by omega
            rw [if_neg hc]
            by_cases hf : self.flush_lines = -1 <;> simp [hf, h1, h2]


theorem has_invalid_column_name_iff (columns : List String) :
    has_invalid_column_name columns ↔
      ∃ col ∈ columns, _is_sql_identifier_sanitized (afsql_dd_init_column col).1 = false := by
  unfold has_invalid_column_name _is_sql_identifier_sanitized
  constructor
  · rintro ⟨col, hcol, ch, hch, hbad⟩
    refine ⟨col, hcol, ?_⟩
    rw [afsql_dd_init_column_name, List.all_eq_false]
    refine ⟨ch, hch, ?_⟩
    rw [_sql_identifier_is_valid_char_iff]
    exact hbad
  · rintro ⟨col, hcol, h⟩
    rw [afsql_dd_init_column_name, List.all_eq_false] at h
    obtain ⟨ch, hch, hbad⟩ := h
    rw [_sql_identifier_is_valid_char_iff] at hbad
    exact ⟨col, hcol, ch, hch, hbad⟩

theorem afsql_dd_init_of_mismatch (env : afsql_init_env) (g : Bool) (self : AFSqlDestDriver)
    (hfields : self.fields = none)
    (hlen : (self.columns.getD []).length ≠ (self.values.getD []).length) :
    afsql_dd_init env g self = some (false, self, g) := by
  unfold afsql_dd_init
  have hne : ((self.columns.getD []).length != (self.values.getD []).length) = true := by
    simpa using hlen
  simp only [hfields, hne, if_true]
  split_ifs <;> rfl

/-- What a successful first `afsql_dd_init` has gone through: the base class
initialised, both lists are non-empty and of one length, and the loop over them ran to
its end; the driver differs from the configured one in `fields` and `flush_lines`. -/
theorem afsql_dd_init_success (env : afsql_init_env) (g : Bool) (self s : AFSqlDestDriver)
    (g' : Bool) (hfields : self.fields = none)
    (hinit : afsql_dd_init env g self = some (true, s, g')) :
    (self.columns.getD []).length = (self.values.getD []).length ∧
    (self.columns.getD []) ≠ [] ∧
    ∃ fs, afsql_dd_init_fields env.log_template_compile (self.columns.getD [])
        (self.values.getD []) = some (true, fs) ∧
      fs.length = (self.columns.getD []).length ∧
      s = { self with
            fields := some fs,
            flush_lines := if self.flush_lines = -1 then env.cfg_flush_lines
              else self.flush_lines } := by
  by_cases hbase : env.log_threaded_dest_driver_init_method = true
  swap
  · unfold afsql_dd_init at hinit
    simp [hbase] at hinit
  by_cases hcols : (self.columns.getD []).isEmpty = false
  swap
  · unfold afsql_dd_init at hinit
    simp only [Bool.not_eq_false] at hcols
    simp [hbase, hcols] at hinit
  by_cases hvals : (self.values.getD []).isEmpty = false
  swap
  · unfold afsql_dd_init at hinit
    simp only [Bool.not_eq_false] at hvals
    simp [hbase, hvals] at hinit
  by_cases hlen : (self.columns.getD []).length = (self.values.getD []).length
  swap
  · rw [afsql_dd_init_of_mismatch env g self hfields hlen] at hinit
    simp at hinit
  rw [afsql_dd_init_first env g self hfields hbase hcols hvals hlen] at hinit
  refine ⟨hlen, by simpa using hcols, ?_⟩
  cases hr : afsql_dd_init_fields env.log_template_compile (self.columns.getD [])
      (self.values.getD []) with
  | none => rw [hr] at hinit; simp at hinit
  | some r =>
    obtain ⟨ok, fs⟩ := r
    rw [hr] at hinit
    cases ok with
    | false => simp at hinit
    | true =>
      have hl : fs.length = (self.columns.getD []).length := by
        have h := (afsql_dd_init_fields_success _ _ _ _ hr).length_eq
        rw [← h, List.length_zip, ← hlen, Nat.min_self]
      refine ⟨fs, rfl, hl, ?_⟩
      dsimp only at hinit
      rw [hl, Nat.sub_self, List.replicate_zero, List.append_nil] at hinit
      by_cases hc : g = false ∧ env.dbi_initialize_r ≤ 0
      · rw [if_pos hc] at hinit
        simp only [Option.some.injEq, Prod.mk.injEq] at hinit
        exact absurd hinit.1 (by decide)
      · rw [if_neg hc] at hinit
        simp only [Option.some.injEq, Prod.mk.injEq] at hinit
        exact hinit.2.1.symm

theorem intercalate_go_append (s : String) :
    ∀ (l : List String) (x acc : String),
      String.intercalate.go (x ++ acc) s l = x ++ String.intercalate.go acc s l := by
  intro l
  induction l with
  | nil => intro x acc; rfl
  | cons a l ih =>
    intro x acc
    show String.intercalate.go (x ++ acc ++ s ++ a) s l =
      x ++ String.intercalate.go (acc ++ s ++ a) s l
    rw [← ih x (acc ++ s ++ a), String.append_assoc, String.append_assoc,
      String.append_assoc]

theorem intercalate_cons_cons (s a b : String) (l : List String) :
    s.intercalate (a :: b :: l) = a ++ s ++ s.intercalate (b :: l) := by
  show String.intercalate.go (a ++ s ++ b) s l = a ++ s ++ String.intercalate.go b s l
  rw [intercalate_go_append]

theorem field_from_init_of_comes_from (compile : String → LogTemplate) (col : String)
    (value : afsql_value) (f : AFSqlField) (h : field_comes_from compile col value f) :
    field_from_init f := by
  rcases h.2 with ⟨text, _, hv, hf⟩ | ⟨_, hv, hf⟩
  · exact Or.inr ⟨hf, by rw [hv]; rfl⟩
  · exact Or.inl ⟨hf, hv⟩

theorem non_default_fields_cons_default (f : AFSqlField) (rest : List AFSqlField)
    (h : f.flags = AFSQL_FF_DEFAULT) :
    non_default_fields (f :: rest) = non_default_fields rest := by
  unfold non_default_fields
  rw [List.filter_cons, h]
  rfl

theorem non_default_fields_cons_plain (f : AFSqlField) (rest : List AFSqlField)
    (h : f.flags = 0) :
    non_default_fields (f :: rest) = f :: non_default_fields rest := by
  unfold non_default_fields
  rw [List.filter_cons, h]
  rfl

theorem _field_follows_eq :
    ∀ (fs : List AFSqlField), (∀ f ∈ fs, field_from_init f) →
      _field_follows fs = !(non_default_fields fs).isEmpty := by
  intro fs
  induction fs with
  | nil => intro _; rfl
  | cons f rest ih =>
    intro h
    have hrest : ∀ x ∈ rest, field_from_init x := fun x hx => h x (List.mem_cons_of_mem _ hx)
    rcases h f (List.mem_cons_self _ _) with ⟨hf, _⟩ | ⟨hf, _⟩
    · rw [non_default_fields_cons_default f rest hf, ← ih hrest]
      rw [_field_follows, hf]
      rfl
    · rw [non_default_fields_cons_plain f rest hf]
      rw [_field_follows, hf]
      rfl

theorem _insert_command_columns_eq :
    ∀ (fs : List AFSqlField), (∀ f ∈ fs, field_from_init f) →
      _insert_command_columns fs =
        ", ".intercalate ((non_default_fields fs).map (fun f => f.name)) := by
  intro fs
  induction fs with
  | nil => intro _; rfl
  | cons f rest ih =>
    intro h
    have hrest : ∀ x ∈ rest, field_from_init x := fun x hx => h x (List.mem_cons_of_mem _ hx)
    rw [_insert_command_columns, ih hrest, _field_follows_eq rest hrest]
    rcases h f (List.mem_cons_self _ _) with ⟨hf, hv⟩ | ⟨hf, hv⟩
    · rw [non_default_fields_cons_default f rest hf, hf]
      exact String.empty_append _
    · rw [non_default_fields_cons_plain f rest hf, hf, hv]
      cases hnd : non_default_fields rest with
      | nil => simp [String.intercalate, String.intercalate.go]
      | cons x xs =>
        simp only [List.map_cons]
        rw [intercalate_cons_cons]
        simp [String.append_assoc]

theorem _insert_command_values_eq (self : AFSqlDestDriver) (msg : LogMessage) :
    ∀ (fs : List AFSqlField), (∀ f ∈ fs, field_from_init f) →
      _insert_command_values self msg fs =
        ", ".intercalate ((non_default_fields fs).map
          (fun f => _insert_command_value self (field_rendering self msg f))) := by
  intro fs
  induction fs with
  | nil => intro _; rfl
  | cons f rest ih =>
    intro h
    have hrest : ∀ x ∈ rest, field_from_init x := fun x hx => h x (List.mem_cons_of_mem _ hx)
    rw [_insert_command_values, ih hrest, _field_follows_eq rest hrest]
    rcases h f (List.mem_cons_self _ _) with ⟨hf, hv⟩ | ⟨hf, hv⟩
    · rw [non_default_fields_cons_default f rest hf, hv]
      exact String.empty_append _
    · rw [non_default_fields_cons_plain f rest hf]
      obtain ⟨tmpl, ht⟩ := Option.isSome_iff_exists.mp hv
      have hr : field_rendering self msg f = tmpl.format msg self.super.seq_num := by
        unfold field_rendering; rw [ht]
      rw [ht, hf]
      cases hnd : non_default_fields rest with
      | nil => simp [String.intercalate, String.intercalate.go, hr]
      | cons x xs =>
        simp only [List.map_cons]
        rw [intercalate_cons_cons, hr]
        simp [String.append_assoc]

theorem forall₂_getElem? {α β : Type} {R : α → β → Prop} {l : List α} {fs : List β}
    (h : List.Forall₂ R l fs) :
    ∀ (i : Nat) (a : α), l[i]? = some a → ∃ f, fs[i]? = some f ∧ R a f := by
  induction h with
  | nil => intro i a h; simp at h
  | cons hab _ ih =>
    intro i a h
    cases i with
    | zero =>
      simp only [List.getElem?_cons_zero, Option.some.injEq] at h
      subst h
      exact ⟨_, by simp, hab⟩
    | succ i =>
      simp only [List.getElem?_cons_succ] at h ⊢
      exact ih i a h

theorem forall₂_filter {α β : Type} {R : α → β → Prop} (p : α → Bool) (q : β → Bool)
    (hpq : ∀ a b, R a b → p a = q b) {l : List α} {fs : List β}
    (h : List.Forall₂ R l fs) : List.Forall₂ R (l.filter p) (fs.filter q) := by
  induction h with
  | nil => exact List.Forall₂.nil
  | cons hab _ ih =>
    rw [List.filter_cons, List.filter_cons, hpq _ _ hab]
    split_ifs
    · exact List.Forall₂.cons hab ih
    · exact ih

/-- The fields of a successfully initialised driver: one for each pair of a column and a
value, in their order, with a sanitized name. -/
theorem afsql_dd_init_fields_list (env : afsql_init_env) (g : Bool)
    (self s : AFSqlDestDriver) (g' : Bool) (hfields : self.fields = none)
    (hinit : afsql_dd_init env g self = some (true, s, g')) :
    List.Forall₂ (fun cv f => field_comes_from env.log_template_compile cv.1 cv.2 f ∧
        _is_sql_identifier_sanitized f.name = true)
      ((self.columns.getD []).zip (self.values.getD [])) s.fields_list := by
  obtain ⟨_, _, fs, hfs, _, hs⟩ := afsql_dd_init_success env g self s g' hfields hinit
  have h := afsql_dd_init_fields_success _ _ _ _ hfs
  rw [hs]
  exact h

theorem afsql_dd_init_fields_from_init (env : afsql_init_env) (g : Bool)
    (self s : AFSqlDestDriver) (g' : Bool) (hfields : self.fields = none)
    (hinit : afsql_dd_init env g self = some (true, s, g')) :
    ∀ f ∈ s.fields_list, field_from_init f := by
  have h := afsql_dd_init_fields_list env g self s g' hfields hinit
  intro f hf
  obtain ⟨i, hi, rfl⟩ := List.getElem_of_mem hf
  have hlen := h.length_eq
  have hR := (List.forall₂_iff_get.mp h).2 i (by rw [hlen]; exact hi) hi
  exact field_from_init_of_comes_from _ _ _ _ hR.1

theorem matches_null_value_iff (self : AFSqlDestDriver) (value : String) :
    matches_null_value self value ↔ self.null_value = some value := by
  unfold matches_null_value
  constructor
  · rintro ⟨nv, h1, rfl⟩; exact h1
  · intro h; exact ⟨value, h, rfl⟩

theorem _insert_command_value_of_match (self : AFSqlDestDriver) (value : String)
    (h : matches_null_value self value) : _insert_command_value self value = "NULL" := by
  rw [matches_null_value_iff] at h
  unfold _insert_command_value
  simp [h]

theorem _insert_command_value_of_no_match (self : AFSqlDestDriver) (value : String)
    (h : ¬ matches_null_value self value) :
    _insert_command_value self value = (quoting_primitive self value).getD "''" := by
  rw [matches_null_value_iff] at h
  unfold _insert_command_value quoting_primitive
  have hb : (self.null_value == some value) = false := by simpa using h
  rw [hb]
  cases hc : self.dbi_ctx with
  | none => rfl
  | some conn =>
    cases hq : conn.quote_string_copy value <;> simp [hq]

/-- C16: after a successful first `afsql_dd_init` there are as many fields as columns and
as values, and the field at each index comes from the column and the value at that
index: without a space the column entry is the name and the type is `text`; otherwise
the name is the text before the first space and the type is what follows the run of
spaces after it, `text` if nothing follows. -/
theorem afsql_dd_init_fields_from_columns (env : afsql_init_env) (g : Bool)
    (self s : AFSqlDestDriver) (g' : Bool) (hfields : self.fields = none)
    (hinit : afsql_dd_init env g self = some (true, s, g')) :
    s.fields_list.length = (self.columns.getD []).length ∧
    (self.values.getD []).length = (self.columns.getD []).length ∧
    ∀ (i : Nat) (col : String) (value : afsql_value),
      (self.columns.getD [])[i]? = some col → (self.values.getD [])[i]? = some value →
      ∃ f, s.fields_list[i]? = some f ∧
        field_comes_from env.log_template_compile col value f := by
  obtain ⟨hlen, _, fs, _, hl, hs⟩ := afsql_dd_init_success env g self s g' hfields hinit
  have h := afsql_dd_init_fields_list env g self s g' hfields hinit
  refine ⟨by rw [hs]; exact hl, hlen.symm, ?_⟩
  intro i col value hc hv
  have hz : ((self.columns.getD []).zip (self.values.getD []))[i]? = some (col, value) :=
    List.getElem?_zip_eq_some.mpr ⟨hc, hv⟩
  obtain ⟨f, hf, hR⟩ := forall₂_getElem? h i (col, value) hz
  exact ⟨f, hf, hR.1⟩

/-- C16, at the example configuration: the four fields of `example_fields`. -/
theorem afsql_dd_init_fields_from_columns_witness :
    (configured_driver example_columns example_values).fields = none ∧
    afsql_dd_init example_init_env false (configured_driver example_columns example_values) =
      some (true, { configured_driver example_columns example_values with
        fields := some example_fields, flush_lines := 100 }, true) ∧
    ∃ f, example_fields[1]? = some f ∧
      field_comes_from literal_template "host   varchar(32)" (afsql_value.template "$HOST") f :=
  ⟨rfl, rfl,
   ((afsql_dd_init_fields_from_columns example_init_env false
      (configured_driver example_columns example_values)
      { configured_driver example_columns example_values with
        fields := some example_fields, flush_lines := 100 } true rfl rfl).2.2
      1 "host   varchar(32)" (afsql_value.template "$HOST") rfl rfl)⟩

/-- C13: for the fields of a successfully initialised driver, in any later state `d` of
the driver with these fields, the statement is `INSERT INTO <table> (` followed by the
names of the fields that are not `DEFAULT`, joined by `, `, then `) VALUES (`, their
value texts joined by `, `, and `)`; the two lists have the same length, and the fields
that are not `DEFAULT` come, in order, from the column and value entries whose value is
not `DEFAULT`. -/
theorem afsql_dd_build_insert_command_spec (env : afsql_init_env) (g : Bool)
    (self s : AFSqlDestDriver) (g' : Bool) (hfields : self.fields = none)
    (hinit : afsql_dd_init env g self = some (true, s, g'))
    (d : AFSqlDestDriver) (hd : d.fields = s.fields) (msg : LogMessage) (table : String) :
    afsql_dd_build_insert_command d msg table =
      "INSERT INTO " ++ table ++ " (" ++
        ", ".intercalate ((non_default_fields s.fields_list).map (fun f => f.name)) ++
        ") VALUES (" ++
        ", ".intercalate ((non_default_fields s.fields_list).map
          (fun f => _insert_command_value d (field_rendering d msg f))) ++ ")" ∧
    ((non_default_fields s.fields_list).map (fun f => f.name)).length =
      ((non_default_fields s.fields_list).map
        (fun f => _insert_command_value d (field_rendering d msg f))).length ∧
    List.Forall₂ (fun cv f => field_comes_from env.log_template_compile cv.1 cv.2 f)
      (((self.columns.getD []).zip (self.values.getD [])).filter
        (fun cv => cv.2 != afsql_value.sentinel AFSQL_COLUMN_DEFAULT))
      (non_default_fields s.fields_list) := by
  have hfrom := afsql_dd_init_fields_from_init env g self s g' hfields hinit
  have hlist := afsql_dd_init_fields_list env g self s g' hfields hinit
  have hdl : d.fields_list = s.fields_list := by
    unfold AFSqlDestDriver.fields_list; rw [hd]
  refine ⟨?_, by simp, ?_⟩
  · unfold afsql_dd_build_insert_command
    rw [hdl, _insert_command_columns_eq _ hfrom, _insert_command_values_eq d msg _ hfrom]
  · unfold non_default_fields
    refine forall₂_filter _ _ ?_ (List.Forall₂.imp (fun _ _ h => h.1) hlist)
    intro cv f h
    rcases h.2 with ⟨text, hv, _, hf⟩ | ⟨hv, _, hf⟩
    · rw [hv, hf]; rfl
    · rw [hv, hf]; rfl

/-- C13, at the example configuration and a connected driver: the `DEFAULT` column `id`
is in neither list. -/
theorem afsql_dd_build_insert_command_spec_witness :
    (configured_driver example_columns example_values).fields = none ∧
    afsql_dd_init example_init_env false (configured_driver example_columns example_values) =
      some (true, { configured_driver example_columns example_values with
        fields := some example_fields, flush_lines := 100 }, true) ∧
    afsql_dd_build_insert_command
        { configured_driver example_columns example_values with
          fields := some example_fields, flush_lines := 100,
          dbi_ctx := some accepting_server } example_msg "messages" =
      "INSERT INTO messages (date, host, msg) VALUES ('$R_DATE', '$HOST', '$MSG')" :=
  ⟨rfl, rfl,
   ((afsql_dd_build_insert_command_spec example_init_env false
      (configured_driver example_columns example_values)
      { configured_driver example_columns example_values with
        fields := some example_fields, flush_lines := 100 } true rfl rfl
      { configured_driver example_columns example_values with
        fields := some example_fields, flush_lines := 100,
        dbi_ctx := some accepting_server } rfl example_msg "messages").1).trans (by decide)⟩

/-- C14: the text that `afsql_dd_build_insert_command` appends for a rendered value is
`NULL` when `null_value` is configured and equals the rendered value, and otherwise the
output of the connection's quoting primitive (two apostrophes when it gives none), so
that it is the unquoted `NULL` exactly in the first case; and the VALUES list of the
statement consists of these texts for the rendered templates of the fields that are not
`DEFAULT`. -/
theorem _insert_command_value_spec (self : AFSqlDestDriver) (msg : LogMessage) :
    (∀ value : String,
      (matches_null_value self value → _insert_command_value self value = "NULL") ∧
      (¬ matches_null_value self value →
        _insert_command_value self value = (quoting_primitive self value).getD "''") ∧
      (quoting_primitive self value ≠ some "NULL" →
        (_insert_command_value self value = "NULL" ↔ matches_null_value self value))) ∧
    ((∀ f ∈ self.fields_list, field_from_init f) → ∀ table : String,
      afsql_dd_build_insert_command self msg table =
        "INSERT INTO " ++ table ++ " (" ++ _insert_command_columns self.fields_list ++
          ") VALUES (" ++
          ", ".intercalate ((non_default_fields self.fields_list).map
            (fun f => _insert_command_value self (field_rendering self msg f))) ++ ")") := by
  constructor
  · intro value
    refine ⟨_insert_command_value_of_match self value,
      _insert_command_value_of_no_match self value, ?_⟩
    intro hq
    constructor
    · intro h
      by_contra hm
      rw [_insert_command_value_of_no_match self value hm] at h
      cases hp : quoting_primitive self value with
      | none => rw [hp] at h; exact absurd h (by decide)
      | some quoted =>
        rw [hp] at h hq
        simp only [Option.getD_some] at h
        exact hq (by rw [h])
    · exact _insert_command_value_of_match self value
  · intro h table
    unfold afsql_dd_build_insert_command
    rw [_insert_command_values_eq self msg _ h]


/-! ## Transactions (C21, C24, C25) -/

theorem afsql_dd_begin_transaction_eq (self : AFSqlDestDriver) :
    afsql_dd_begin_transaction self =
      match begin_statement self.type with
      | none => (true, { self with transaction_active := true })
      | some s_begin =>
        (statement_succeeds self s_begin,
         { self with queries := self.queries ++ [s_begin],
                     transaction_active := statement_succeeds self s_begin }) := by
  unfold afsql_dd_begin_transaction begin_statement statement_succeeds afsql_dd_run_query
    s_oracle s_freetds
  by_cases ho : self.type = "oracle"
  · simp [ho]
  · by_cases hf : self.type = "freetds"
    · simp [hf]
    · simp [ho, hf]

/-- C21: `afsql_dd_set_type` stores `freetds` for `freetds` and for the alias `mssql`
(and any other type as given); `afsql_dd_begin_transaction` issues exactly the statement
`BEGIN TRANSACTION` when the type is `freetds`, issues no statement and succeeds when it
is `oracle`, and issues exactly `BEGIN` for every other type; afterwards
`transaction_active` equals the result of the call. -/
theorem afsql_dd_begin_transaction_spec (self : AFSqlDestDriver) :
    (afsql_dd_set_type self "freetds").type = "freetds" ∧
    (afsql_dd_set_type self "mssql").type = "freetds" ∧
    (∀ type : String, type ≠ "mssql" → (afsql_dd_set_type self type).type = type) ∧
    (self.type = "freetds" →
      (afsql_dd_begin_transaction self).2.queries =
        self.queries ++ ["BEGIN TRANSACTION"] ∧
      (afsql_dd_begin_transaction self).1 = statement_succeeds self "BEGIN TRANSACTION") ∧
    (self.type = "oracle" →
      (afsql_dd_begin_transaction self).2.queries = self.queries ∧
      (afsql_dd_begin_transaction self).1 = true) ∧
    (self.type ≠ "freetds" → self.type ≠ "oracle" →
      (afsql_dd_begin_transaction self).2.queries = self.queries ++ ["BEGIN"] ∧
      (afsql_dd_begin_transaction self).1 = statement_succeeds self "BEGIN") ∧
    ((afsql_dd_begin_transaction self).2.transaction_active = true ↔
      (afsql_dd_begin_transaction self).1 = true) := by
  rw [afsql_dd_begin_transaction_eq]
  refine ⟨rfl, rfl, ?_, ?_, ?_, ?_, ?_⟩
  · intro type h
    unfold afsql_dd_set_type
    simp [h]
  · intro h
    simp [begin_statement, h]
  · intro h
    simp [begin_statement, h]
  · intro hf ho
    simp [begin_statement, hf, ho]
  · cases begin_statement self.type <;> simp

/-- C24: without an active transaction `afsql_dd_begin_new_transaction` is
`afsql_dd_begin_transaction`; with an active transaction whose COMMIT succeeds it issues
COMMIT and then begins, from a state without active transaction; with an active
transaction whose COMMIT fails it issues COMMIT and ROLLBACK and nothing else, returns
failure and leaves no transaction active. -/
theorem afsql_dd_begin_new_transaction_spec (self : AFSqlDestDriver) :
    (self.transaction_active = false →
      afsql_dd_begin_new_transaction self = afsql_dd_begin_transaction self) ∧
    (self.transaction_active = true → statement_succeeds self "COMMIT" = true →
      afsql_dd_begin_new_transaction self =
        afsql_dd_begin_transaction
          { self with queries := self.queries ++ ["COMMIT"], transaction_active := false } ∧
      (afsql_dd_begin_new_transaction self).2.queries =
        self.queries ++ "COMMIT" :: (begin_statement self.type).toList) ∧
    (self.transaction_active = true → statement_succeeds self "COMMIT" = false →
      (afsql_dd_begin_new_transaction self).1 = false ∧
      (afsql_dd_begin_new_transaction self).2.queries =
        self.queries ++ ["COMMIT", "ROLLBACK"] ∧
      (afsql_dd_begin_new_transaction self).2.transaction_active = false) := by
  refine ⟨?_, ?_, ?_⟩
  · intro h
    unfold afsql_dd_begin_new_transaction
    simp [h]
  · intro h hc
    have hc' : (afsql_dd_run_query self "COMMIT" false).1.isSome = true := hc
    have e : afsql_dd_begin_new_transaction self =
        afsql_dd_begin_transaction
          { self with queries := self.queries ++ ["COMMIT"], transaction_active := false } := by
      unfold afsql_dd_begin_new_transaction afsql_dd_commit_transaction
      simp only [h, hc', Bool.not_true, Bool.false_eq_true, if_false, if_true]
      rfl
    refine ⟨e, ?_⟩
    rw [e, afsql_dd_begin_transaction_eq]
    cases begin_statement self.type <;> simp
  · intro h hc
    have hc' : (afsql_dd_run_query self "COMMIT" false).1.isSome = false := hc
    unfold afsql_dd_begin_new_transaction afsql_dd_commit_transaction
      afsql_dd_rollback_transaction
    simp only [h, hc', Bool.not_true, Bool.not_false, Bool.false_eq_true, if_false, if_true]
    simp [afsql_dd_run_query, h]

/-- C25: without an active transaction `afsql_dd_commit_transaction` and
`afsql_dd_rollback_transaction` return success and the driver as it was, no statement
issued. -/
theorem afsql_dd_commit_rollback_noop (self : AFSqlDestDriver)
    (h : self.transaction_active = false) :
    afsql_dd_commit_transaction self = (true, self) ∧
    afsql_dd_rollback_transaction self = (true, self) ∧
    (afsql_dd_commit_transaction self).2.queries = self.queries ∧
    (afsql_dd_rollback_transaction self).2.queries = self.queries := by
  unfold afsql_dd_commit_transaction afsql_dd_rollback_transaction
  simp [h]

/-- C25, at a connected driver without active transaction. -/
theorem afsql_dd_commit_rollback_noop_witness :
    (example_driver accepting_server 1 3 0 false).transaction_active = false ∧
    (afsql_dd_commit_transaction (example_driver accepting_server 1 3 0 false)).1 = true ∧
    (afsql_dd_rollback_transaction (example_driver accepting_server 1 3 0 false)).1 = true ∧
    (afsql_dd_commit_transaction (example_driver accepting_server 1 3 0 false)).2.queries =
      [] ∧
    (afsql_dd_rollback_transaction (example_driver accepting_server 1 3 0 false)).2.queries =
      [] :=
  ⟨rfl,
   congrArg Prod.fst (afsql_dd_commit_rollback_noop _ rfl).1,
   congrArg Prod.fst (afsql_dd_commit_rollback_noop _ rfl).2.1,
   (afsql_dd_commit_rollback_noop (example_driver accepting_server 1 3 0 false) rfl).2.2.1,
   (afsql_dd_commit_rollback_noop (example_driver accepting_server 1 3 0 false) rfl).2.2.2⟩

/-! ## Retries and disconnect (C22, C23) -/

/-- C22, the code: `afsql_dd_set_retries` stores its argument in `num_retries` and leaves
the threaded driver, `retries_max` included, as it was; a new driver on which it is
called with 5 still has the bound 3. -/
theorem afsql_dd_set_retries_leaves_retries_max (self : AFSqlDestDriver) (n : Int) :
    (afsql_dd_set_retries self n).num_retries = n ∧
    (afsql_dd_set_retries self n).super = self.super ∧
    (afsql_dd_set_retries self n).super.retries_max = self.super.retries_max ∧
    (n ≠ self.super.retries_max → (afsql_dd_set_retries self n).super.retries_max ≠ n) ∧
    (afsql_dd_new literal_template).super.retries_max = 3 ∧
    (afsql_dd_set_retries (afsql_dd_new literal_template) 5).super.retries_max = 3 ∧
    (afsql_dd_set_retries (afsql_dd_new literal_template) 5).super.retries_max ≠ 5 := by
  refine ⟨rfl, rfl, rfl, ?_, rfl, rfl, by decide⟩
  intro h heq
  exact h heq.symm

/-- C23: calling `afsql_dd_disconnect` twice leaves the state that calling it once
leaves; the connection handle is cleared, and putting the old handle back gives the
driver as it was, so no other field changes. -/
theorem afsql_dd_disconnect_idempotent (self : AFSqlDestDriver) :
    afsql_dd_disconnect (afsql_dd_disconnect self) = afsql_dd_disconnect self ∧
    (afsql_dd_disconnect self).dbi_ctx = none ∧
    { afsql_dd_disconnect self with dbi_ctx := self.dbi_ctx } = self ∧
    (afsql_dd_disconnect self).super = self.super ∧
    (afsql_dd_disconnect self).transaction_active = self.transaction_active ∧
    (afsql_dd_disconnect self).syslogng_conform_tables = self.syslogng_conform_tables ∧
    (afsql_dd_disconnect self).fields = self.fields ∧
    (afsql_dd_disconnect self).queries = self.queries :=
  ⟨rfl, rfl, rfl, rfl, rfl, rfl, rfl, rfl⟩

/-! ## The schema step with a failing COMMIT (C26) -/

/-- C26, the code at the failing input: the probe fails, `CREATE TABLE` succeeds and the
`COMMIT` after it fails, so the creation is rolled back; `_table_create` still returns
success, `afsql_dd_ensure_table_is_syslogng_conform` returns success and remembers the
table, and `afsql_dd_insert` goes on to its INSERT: it returns SUCCESS when the server
accepts the INSERT, and when the server rejects it the table stays remembered and the
next call issues its INSERT without any schema statement. -/
theorem afsql_dd_ensure_table_remembers_after_failed_commit :
    (_is_table_present (unconfirmed_driver (create_commit_failing_server true))
      "messages").1 = none ∧
    (_table_create
      (_is_table_present (unconfirmed_driver (create_commit_failing_server true))
        "messages").2 "messages").2.queries =
      ["BEGIN", "SELECT * FROM messages WHERE 0=1", "COMMIT",
       "BEGIN", "CREATE TABLE messages (message text)", "COMMIT", "ROLLBACK"] ∧
    statement_succeeds
      { unconfirmed_driver (create_commit_failing_server true) with
        queries := ["BEGIN", "SELECT * FROM messages WHERE 0=1", "COMMIT",
          "BEGIN", "CREATE TABLE messages (message text)"] } "COMMIT" = false ∧
    (_table_create
      (_is_table_present (unconfirmed_driver (create_commit_failing_server true))
        "messages").2 "messages").1 = true ∧
    (afsql_dd_ensure_table_is_syslogng_conform example_MD5
      (unconfirmed_driver (create_commit_failing_server true)) "messages").1 = true ∧
    (afsql_dd_ensure_table_is_syslogng_conform example_MD5
      (unconfirmed_driver (create_commit_failing_server true)) "messages").2.2.queries =
      ["BEGIN", "SELECT * FROM messages WHERE 0=1", "COMMIT",
       "BEGIN", "CREATE TABLE messages (message text)", "COMMIT", "ROLLBACK",
       "BEGIN", "COMMIT"] ∧
    _is_table_syslogng_conform
      (afsql_dd_ensure_table_is_syslogng_conform example_MD5
        (unconfirmed_driver (create_commit_failing_server true)) "messages").2.2
      "messages" = true ∧
    (afsql_dd_insert example_MD5 (unconfirmed_driver (create_commit_failing_server true))
      example_msg).1 = WORKER_INSERT_RESULT_SUCCESS ∧
    (afsql_dd_insert example_MD5 (unconfirmed_driver (create_commit_failing_server true))
      example_msg).1 ≠ WORKER_INSERT_RESULT_ERROR ∧
    (afsql_dd_insert example_MD5 (unconfirmed_driver (create_commit_failing_server false))
      example_msg).1 = WORKER_INSERT_RESULT_ERROR ∧
    (afsql_dd_insert example_MD5 (unconfirmed_driver (create_commit_failing_server false))
      example_msg).2.syslogng_conform_tables = ["messages"] ∧
    (afsql_dd_insert example_MD5
      (afsql_dd_insert example_MD5 (unconfirmed_driver (create_commit_failing_server false))
        example_msg).2 example_msg).2.queries =
      ["BEGIN", "SELECT * FROM messages WHERE 0=1", "COMMIT",
       "BEGIN", "CREATE TABLE messages (message text)", "COMMIT", "ROLLBACK",
       "BEGIN", "COMMIT",
       "INSERT INTO messages (message) VALUES ('hello')",
       "INSERT INTO messages (message) VALUES ('hello')"] := by
  refine ⟨by decide, by decide, by decide, by decide, by decide, by decide, by decide,
    by decide, by decide, by decide, by decide, by decide⟩

/-- Whenever `_table_create` has begun its transaction and its `CREATE TABLE` statement
succeeds, it returns success, whatever becomes of the COMMIT. -/
theorem _table_create_of_created (self : AFSqlDestDriver) (table : String)
    (hb : (afsql_dd_begin_new_transaction self).1 = true)
    (hq : statement_succeeds (afsql_dd_begin_new_transaction self).2
      (_table_create_query (afsql_dd_begin_new_transaction self).2 table) = true) :
    (_table_create self table).1 = true := by
  have hq' : (afsql_dd_run_query (afsql_dd_begin_new_transaction self).2
      (_table_create_query (afsql_dd_begin_new_transaction self).2 table) false).1.isSome =
      true := hq
  unfold _table_create
  simp only [hb, hq', Bool.not_true, Bool.false_eq_true, if_false]
  split_ifs <;> rfl

/-! ## A second initialisation (C27) -/

/-- With the field array already allocated `afsql_dd_init` does not look at the columns:
it succeeds as soon as the base class initialises, both lists are non-empty and DBI is
or becomes initialised. -/
theorem afsql_dd_init_of_fields (env : afsql_init_env) (g : Bool) (self : AFSqlDestDriver)
    (fs : List AFSqlField) (hfields : self.fields = some fs)
    (hbase : env.log_threaded_dest_driver_init_method = true)
    (hcols : (self.columns.getD []).isEmpty = false)
    (hvals : (self.values.getD []).isEmpty = false)
    (hdbi : g = true ∨ 0 < env.dbi_initialize_r) :
    afsql_dd_init env g self =
      some (true, { self with flush_lines := if self.flush_lines = -1 then env.cfg_flush_lines
        else self.flush_lines }, true) := by
  unfold afsql_dd_init
  simp only [hbase, Bool.not_true, Bool.false_eq_true, if_false, hcols, hvals, Bool.or_self,
    hfields]
  cases g with
  | true =>
    by_cases hf : self.flush_lines = -1
    · simp [hf]
    · simp only [hf, if_false]
      simp
      rw [← hfields, if_neg hf]
  | false =>
    have hr : 0 < env.dbi_initialize_r := by
      rcases hdbi with h | h
      · exact absurd h (by decide)
      · exact h
    have h1 : ¬ env.dbi_initialize_r < 0 := by omega
    have h2 : ¬ env.dbi_initialize_r = 0 := by omega
    by_cases hf : self.flush_lines = -1
    · simp [hf, h1, h2]
    · simp only [hf, if_false]
      simp [h1, h2]
      rw [← hfields, if_neg hf]

/-- A first `afsql_dd_init` that gets as far as the loop over the columns and refuses
there leaves the field array allocated. -/
theorem afsql_dd_init_refused_fields (env : afsql_init_env) (g : Bool)
    (self : AFSqlDestDriver) (hfields : self.fields = none)
    (hbase : env.log_threaded_dest_driver_init_method = true)
    (hcols : (self.columns.getD []).isEmpty = false)
    (hvals : (self.values.getD []).isEmpty = false)
    (hlen : (self.columns.getD []).length = (self.values.getD []).length)
    (hwf : values_well_formed (self.values.getD []))
    (hbad : has_invalid_column_name (self.columns.getD [])) :
    ∃ fs, afsql_dd_init env g self = some (false, { self with fields := some fs }, g) := by
  rw [has_invalid_column_name_iff] at hbad
  obtain ⟨fs, hfs⟩ := afsql_dd_init_fields_refuses env.log_template_compile _ _ hwf
    (le_of_eq hlen) hbad
  rw [afsql_dd_init_first env g self hfields hbase hcols hvals hlen, hfs]
  exact ⟨_, rfl⟩

/-- Every configuration that a first `afsql_dd_init` refuses for an invalid column name is
accepted by the next call, base class and DBI initialising. -/
theorem afsql_dd_init_accepts_after_refusal (env : afsql_init_env) (g : Bool)
    (self : AFSqlDestDriver) (hfields : self.fields = none)
    (hbase : env.log_threaded_dest_driver_init_method = true)
    (hcols : (self.columns.getD []).isEmpty = false)
    (hvals : (self.values.getD []).isEmpty = false)
    (hlen : (self.columns.getD []).length = (self.values.getD []).length)
    (hwf : values_well_formed (self.values.getD []))
    (hbad : has_invalid_column_name (self.columns.getD []))
    (hdbi : 0 < env.dbi_initialize_r) :
    ∃ s, afsql_dd_init env g self = some (false, s, g) ∧
      s.columns = self.columns ∧ s.values = self.values ∧
      ∃ s', afsql_dd_init env g s = some (true, s', true) := by
  obtain ⟨fs, h⟩ := afsql_dd_init_refused_fields env g self hfields hbase hcols hvals hlen
    hwf hbad
  exact ⟨_, h, rfl, rfl, _,
    afsql_dd_init_of_fields env g _ fs rfl hbase hcols hvals (Or.inr hdbi)⟩

/-- C27, the code at the failing input: the column name `ho-st` is refused by the first
`afsql_dd_init`, which leaves the field array allocated; the second call on the driver so
left, with the same columns and values, returns success; the driver then builds an INSERT
statement with a dangling separator, and its `CREATE TABLE` statement names the refused
column. -/
theorem afsql_dd_init_accepts_refused_driver :
    has_invalid_column_name (invalid_name_driver.columns.getD []) ∧
    afsql_dd_init example_init_env false invalid_name_driver =
      some (false, invalid_name_driver_refused, false) ∧
    invalid_name_driver_refused.columns = invalid_name_driver.columns ∧
    invalid_name_driver_refused.values = invalid_name_driver.values ∧
    afsql_dd_init example_init_env false invalid_name_driver_refused =
      some (true, { invalid_name_driver_refused with flush_lines := 100 }, true) ∧
    afsql_dd_build_insert_command
        { invalid_name_driver_refused with
          flush_lines := 100, dbi_ctx := some accepting_server } example_msg "messages" =
      "INSERT INTO messages (date, ) VALUES ('$R_DATE', )" ∧
    "CREATE TABLE messages (date datetime, ho-st varchar(32), ".data.isPrefixOf
      (_table_create_query { invalid_name_driver_refused with flush_lines := 100 }
        "messages").data = true := by
  refine ⟨?_, rfl, rfl, rfl, rfl, by decide, by decide⟩
  exact ⟨"ho-st varchar(32)", by simp [invalid_name_driver, configured_driver], '-',
    by decide, by decide⟩

end SyslogNg
